import Mathlib

/-!
Verification of the adaptive bitrate decision engine of the web-tv-player
repository against its natural-language specification.

The engine lives in the `AdaptiveStreamingEngine` class
(src/unnamed/part_007).  Its mutable fields become an explicit
`EngineState` record and each method becomes a pure transition function on
that record.  JavaScript numbers are embedded as rationals (`ℚ`), except
the quality-switch cooldown, which only ever holds the integral
millisecond values 0/1000/2000 and is embedded as `ℤ`.  External effects
(the Network Information API, the throughput probe, segment fetches, MSE
source-buffer events) enter as explicit inputs to the transition
functions; fallible operations return `Except`.

Division in `ℚ` follows Lean's `x / 0 = 0` convention; the only division
whose divisor can be zero is the stability formula's `variance / avg`,
which no claim below depends on.
-/

namespace AdaptiveStreaming

/-- Connection classes of the `NetworkMetrics.connectionType` union type
(part_007 line 36). -/
inductive ConnectionType where
  | slow2g | twoG | threeG | fourG | fiveG | wifi | ethernet
deriving DecidableEq

/-- The `userExperience` union type of `AdaptiveMetrics` (part_007 line 46). -/
inductive UserExperience where
  | excellent | good | fair | poor
deriving DecidableEq

/-- `QualityLevel` (part_007 lines 20-28). -/
structure QualityLevel where
  id : String
  bitrate : ℚ
  resolutionWidth : ℚ
  resolutionHeight : ℚ
  codec : String
  mimeType : String
  url : String
  bandwidth : ℚ
deriving DecidableEq

/-- `NetworkMetrics` (part_007 lines 30-37). -/
structure NetworkMetrics where
  bandwidth : ℚ
  latency : ℚ
  packetLoss : ℚ
  jitter : ℚ
  throughput : ℚ
  connectionType : ConnectionType
deriving DecidableEq

/-- `AdaptiveMetrics` (part_007 lines 39-47). -/
structure AdaptiveMetrics where
  currentQuality : String
  qualitySwitches : ℕ
  rebufferingEvents : ℕ
  averageLatency : ℚ
  bufferHealth : ℚ
  networkStability : ℚ
  userExperience : UserExperience
deriving DecidableEq

/-- `AdaptiveStreamingConfig` (part_007 lines 3-18). -/
structure AdaptiveStreamingConfig where
  qualities : List QualityLevel
  networkCheckInterval : ℚ
  targetBufferLength : ℚ
  maxBufferLength : ℚ
  minBufferLength : ℚ
  lowLatencyMode : Bool
  segmentDuration : ℚ
  rebufferThreshold : ℚ
  qualitySwitchThreshold : ℚ
deriving DecidableEq

/-- Opaque contents of a fetched `ArrayBuffer` segment. -/
abbrev Segment := ℕ

/-- A JavaScript exception value, identified by its message. -/
abbrev JsError := String

/-- The mutable fields of the `AdaptiveStreamingEngine` class
(part_007 lines 50-66), plus an explicit model of the engine's MSE
environment: `hasVideoElement` / `hasMediaSource` / `hasSourceBuffer`
stand for the nullable `videoElement` / `mediaSource` / `sourceBuffer`
references, `sourceBufferUpdating` for `sourceBuffer.updating`,
`appendedSegments` for the byte buffers handed to
`sourceBuffer.appendBuffer`, and `prefetchRequests` logs the
(quality id, segment count) of each prefetch issued by `preloadContent`.
The timer handles and the unused `bufferSegments` array are not modelled.
`rebufferingEventLog` is the class's `rebufferingEvents: number[]`
timestamp array (distinct from the `adaptiveMetrics.rebufferingEvents`
counter). -/
structure EngineState where
  config : AdaptiveStreamingConfig
  currentQuality : Option QualityLevel
  networkMetrics : NetworkMetrics
  adaptiveMetrics : AdaptiveMetrics
  qualityHistory : List String
  rebufferingEventLog : List ℚ
  isPlaying : Bool
  isBuffering : Bool
  lastSegmentTime : ℚ
  segmentQueue : List Segment
  qualitySwitchCooldown : ℤ
  hasVideoElement : Bool
  hasMediaSource : Bool
  hasSourceBuffer : Bool
  sourceBufferUpdating : Bool
  appendedSegments : List Segment
  prefetchRequests : List (String × ℕ)
deriving DecidableEq

/-- `initializeNetworkMetrics` (part_007 lines 74-83). -/
def initializeNetworkMetrics : NetworkMetrics :=
  { bandwidth := 0
    latency := 0
    packetLoss := 0
    jitter := 0
    throughput := 0
    connectionType := ConnectionType.wifi }

/-- `initializeAdaptiveMetrics` (part_007 lines 85-95). -/
def initializeAdaptiveMetrics : AdaptiveMetrics :=
  { currentQuality := ""
    qualitySwitches := 0
    rebufferingEvents := 0
    averageLatency := 0
    bufferHealth := 100
    networkStability := 100
    userExperience := UserExperience.good }

/-- The constructor (part_007 lines 68-72): stores the config and the two
initial metric records; every other field starts at its declared default
(empty arrays, nulls, `false` flags, cooldown 0). -/
def mkEngine (config : AdaptiveStreamingConfig) : EngineState :=
  { config := config
    currentQuality := none
    networkMetrics := initializeNetworkMetrics
    adaptiveMetrics := initializeAdaptiveMetrics
    qualityHistory := []
    rebufferingEventLog := []
    isPlaying := false
    isBuffering := false
    lastSegmentTime := 0
    segmentQueue := []
    qualitySwitchCooldown := 0
    hasVideoElement := false
    hasMediaSource := false
    hasSourceBuffer := false
    sourceBufferUpdating := false
    appendedSegments := []
    prefetchRequests := [] }

/-- Errors thrown on the `initialize`/`setupSourceBuffer` path, one
constructor per `throw new Error(...)` message (part_007 lines 111, 135,
141). -/
inductive EngineError where
  | mediaSourceNotInitialized
  | noSuitableQualityLevelFound
deriving DecidableEq

/-- `selectInitialQuality` (part_007 lines 178-196): conservative pick
(first level at most 500 kbps), escalated when the current bandwidth
metric exceeds 2 Mbps (first level at most 2 Mbps) or 5 Mbps (last level
of the ladder); `selectedQuality || qualities[0]` falls back to the first
level, and is `null` only when the ladder is empty. -/
def selectInitialQuality (s : EngineState) : Option QualityLevel :=
  let qualities := s.config.qualities
  let bandwidth := s.networkMetrics.bandwidth
  let selected0 := qualities.find? (fun q => decide (q.bitrate ≤ 500000))
  let selected1 :=
    if 2000000 < bandwidth then qualities.find? (fun q => decide (q.bitrate ≤ 2000000))
    else selected0
  let selected2 :=
    if 5000000 < bandwidth then qualities[qualities.length - 1]?
    else selected1
  match selected2 with
  | some q => some q
  | none => qualities.head?

/-- `setupSourceBuffer` (part_007 lines 134-153), success path of the MSE
`addSourceBuffer` call.  Throws when `mediaSource` is null or when
`selectInitialQuality` returned null (the code first assigns the null to
`this.currentQuality` and then throws; the `Except` model discards that
partial mutation because `initialize` rejects and the engine is unusable
afterwards). -/
def setupSourceBuffer (s : EngineState) : Except EngineError EngineState :=
  if s.hasMediaSource then
    match selectInitialQuality s with
    | none => Except.error EngineError.noSuitableQualityLevelFound
    | some q =>
        Except.ok
          { s with
            currentQuality := some q
            hasSourceBuffer := true
            sourceBufferUpdating := false
            adaptiveMetrics := { s.adaptiveMetrics with currentQuality := q.id } }
  else Except.error EngineError.mediaSourceNotInitialized

/-- Result of the throughput probe fetch in `measureThroughput`
(part_007 lines 246-257): whether `response.ok` held, the measured
duration, and the numeric value of the content-length header (the code
defaults a missing header to the string a thousand, which JavaScript
coerces to the number 1000 inside the multiplication). -/
structure ProbeResponse where
  ok : Bool
  durationMs : ℚ
  contentLength : ℚ
deriving DecidableEq

/-- `measureThroughput` (part_007 lines 241-263).  `probe = none` models
the fetch throwing: the catch block overwrites the throughput with the
conservative constant 1000000 (1 Mbps).  On a response that is not ok or
a non-positive duration the metrics are left unchanged. -/
def measureThroughput (m : NetworkMetrics) (probe : Option ProbeResponse) :
    NetworkMetrics :=
  match probe with
  | none => { m with throughput := 1000000 }
  | some r =>
      if r.ok && decide (0 < r.durationMs) then
        { m with throughput := r.contentLength * 8 / (r.durationMs / 1000) }
      else m

/-- The `navigator.connection` data read by `updateNetworkMetrics`
(part_007 lines 221-225): `effectiveType` (defaulted to wifi by
`|| 'wifi'`) and `downlink` in Mbps. -/
structure ConnectionInfo where
  effectiveType : Option ConnectionType
  downlinkMbps : ℚ
deriving DecidableEq

/-- External inputs of one `updateNetworkMetrics` call: the Network
Information API when present, and the probe outcome. -/
structure ProbeInput where
  connection : Option ConnectionInfo
  probe : Option ProbeResponse
deriving DecidableEq

/-- Bitrate lookup used twice by `calculateNetworkStability`
(part_007 lines 276-284): the bitrate of the quality whose id matches, or
0 (`quality?.bitrate || 0`). -/
def bitrateOfId (s : EngineState) (q : String) : ℚ :=
  ((s.config.qualities.find? (fun ql => ql.id == q)).map QualityLevel.bitrate).getD 0

/-- `calculateNetworkStability` (part_007 lines 268-289): variance of the
bitrates of the last 10 entries of `qualityHistory` (`slice(-10)`),
turned into `max 0 (100 - variance/avg*100)`; fewer than 2 entries give
stability 100.  (When every recent bitrate is 0, JavaScript divides by
zero and produces NaN where this embedding's `ℚ` convention gives 0; no
claim depends on that corner.) -/
def calculateNetworkStability (s : EngineState) : EngineState :=
  let recentBandwidths := s.qualityHistory.drop (s.qualityHistory.length - 10)
  if recentBandwidths.length < 2 then
    { s with adaptiveMetrics := { s.adaptiveMetrics with networkStability := 100 } }
  else
    let avgBandwidth :=
      (recentBandwidths.map (bitrateOfId s)).sum / (recentBandwidths.length : ℚ)
    let variance :=
      (recentBandwidths.map
        (fun q => (bitrateOfId s q - avgBandwidth) * (bitrateOfId s q - avgBandwidth))).sum /
        (recentBandwidths.length : ℚ)
    { s with
      adaptiveMetrics :=
        { s.adaptiveMetrics with
          networkStability := max 0 (100 - variance / avgBandwidth * 100) } }

/-- `updateNetworkMetrics` (part_007 lines 218-236): connection-API
readout (bandwidth in bps = `downlink * 1000000`), then the throughput
probe, then the stability recomputation.  The whole body is wrapped in a
try/catch that only logs, and `measureThroughput` catches internally, so
the function is total and never surfaces an error. -/
def updateNetworkMetrics (s : EngineState) (inp : ProbeInput) : EngineState :=
  let m := s.networkMetrics
  let m1 :=
    match inp.connection with
    | some c =>
        { m with
          connectionType := c.effectiveType.getD ConnectionType.wifi
          bandwidth := c.downlinkMbps * 1000000 }
    | none => m
  let m2 := measureThroughput m1 inp.probe
  calculateNetworkStability { s with networkMetrics := m2 }

/-- The loop of `selectQualityForBitrate` (part_007 lines 321-327):
walks the ladder keeping the last level whose bitrate fits the target,
and breaks at the first level that does not. -/
def selectQualityLoop (targetBitrate : ℚ) :
    QualityLevel → List QualityLevel → QualityLevel
  | sel, [] => sel
  | sel, q :: rest =>
      if q.bitrate ≤ targetBitrate then selectQualityLoop targetBitrate q rest
      else sel

/-- `selectQualityForBitrate` (part_007 lines 315-330): the scan starts
from `qualities[0]` and runs over the whole ladder; on an empty ladder
`qualities[0]` is undefined and the function returns it unchanged,
modelled as `none`. -/
def selectQualityForBitrate (qualities : List QualityLevel) (targetBitrate : ℚ) :
    Option QualityLevel :=
  match qualities with
  | [] => none
  | q0 :: _ => some (selectQualityLoop targetBitrate q0 qualities)

/-- `switchQuality` (part_007 lines 335-376), success path of the MSE
buffer swap.  Returns the state unchanged when `mediaSource` or
`sourceBuffer` is null.  `extractBufferSegment` (lines 381-385) is a stub
that always returns null, so no bytes are copied into the fresh source
buffer; the fresh buffer is not updating.  On success the current
quality, the metrics, the history and the 2000 ms cooldown are updated
(lines 365-369). -/
def switchQuality (s : EngineState) (newQuality : QualityLevel) : EngineState :=
  if s.hasMediaSource && s.hasSourceBuffer then
    { s with
      sourceBufferUpdating := false
      currentQuality := some newQuality
      adaptiveMetrics :=
        { s.adaptiveMetrics with
          currentQuality := newQuality.id
          qualitySwitches := s.adaptiveMetrics.qualitySwitches + 1 }
      qualityHistory := s.qualityHistory ++ [newQuality.id]
      qualitySwitchCooldown := 2000 }
  else s

/-- `adaptQuality` (part_007 lines 294-310): no-op without a current
quality or while the cooldown is positive; otherwise targets 80% of
`min(bandwidth, throughput)` and switches when the selected level has a
different id. -/
def adaptQuality (s : EngineState) : EngineState :=
  match s.currentQuality with
  | none => s
  | some currentQuality =>
      if 0 < s.qualitySwitchCooldown then s
      else
        let availableBandwidth := min s.networkMetrics.bandwidth s.networkMetrics.throughput
        let targetBitrate := availableBandwidth * 0.8
        match selectQualityForBitrate s.config.qualities targetBitrate with
        | none => s
        | some newQuality =>
            if newQuality.id ≠ currentQuality.id then switchQuality s newQuality
            else s

/-- `this.currentQuality?.id` as used by `handleRebufferingRisk`. -/
def currentQualityId (s : EngineState) : Option String :=
  s.currentQuality.map QualityLevel.id

/-- `preloadContent` (part_007 lines 436-451): no-op without a current
quality; otherwise issues a fetch of the next 3 segments at the current
quality, recorded as a prefetch request.  (The body then appends the
fetched bytes only while the source buffer is idle; those externally
fetched bytes are not part of the tick state model.) -/
def preloadContent (s : EngineState) : EngineState :=
  match s.currentQuality with
  | none => s
  | some currentQuality =>
      { s with prefetchRequests := s.prefetchRequests ++ [(currentQuality.id, 3)] }

/-- Whether the un-awaited async `switchQuality` call suspends before
updating any engine state: its body reaches
`await this.extractBufferSegment(...)` (part_007 line 352) exactly when
the old source buffer has at least one buffered range and the playback
position lies inside the FIRST range (lines 345-351); every state
update (current quality, metrics, history, cooldown) sits after that
await, so it is deferred past the caller's synchronous continuation.
Otherwise (no ranges, or position outside the first range) no await is
reached and the whole body runs synchronously. -/
def switchQualitySuspends (currentTime : ℚ) (buffered : List (ℚ × ℚ)) : Bool :=
  match buffered with
  | [] => false
  | r :: _ => decide (r.1 ≤ currentTime ∧ currentTime ≤ r.2)

/-- `handleRebufferingRisk` (part_007 lines 417-431): returns early when
`isBuffering` is set; otherwise calls the async `switchQuality` WITHOUT
awaiting it for the ladder level one index below the current one (when
the current index is positive; `findIndex` misses and index 0 skip the
switch), then calls `preloadContent`.  When `switchQuality` suspends at
its internal await (`switchQualitySuspends`: position inside the first
buffered range of the old buffer), `preloadContent` starts the prefetch
at the still-unchanged OLD current quality and the deferred switch
continuation lands afterwards — on the microtask queue, before the next
timer tick, which is why the suspended switch is still folded into this
tick's resulting state, after the prefetch; without the suspension
`switchQuality` completes synchronously first and the prefetch starts at
the NEW quality.  `currentTime`/`buffered` are the same playback
position and source-buffer ranges the enclosing buffer-check tick
observes. -/
def handleRebufferingRisk (s : EngineState) (currentTime : ℚ)
    (buffered : List (ℚ × ℚ)) : EngineState :=
  if s.isBuffering then s
  else
    match s.config.qualities.findIdx? (fun q => some q.id == currentQualityId s) with
    | none => preloadContent s
    | some currentIndex =>
        if 0 < currentIndex then
          match s.config.qualities[currentIndex - 1]? with
          | some lowerQuality =>
              if switchQualitySuspends currentTime buffered then
                switchQuality (preloadContent s) lowerQuality
              else
                preloadContent (switchQuality s lowerQuality)
          | none => preloadContent s
        else preloadContent s

/-- `monitorBufferHealth` (part_007 lines 390-412): no-op when the video
element or source buffer is null; zero buffered ranges set health 0;
otherwise health is `min 100 (bufferAhead / targetBufferLength * 100)`
where `bufferAhead` is the end of the last buffered range minus the
current time, and a `bufferAhead` below the rebuffer threshold triggers
`handleRebufferingRisk`. -/
def monitorBufferHealth (s : EngineState) (currentTime : ℚ)
    (buffered : List (ℚ × ℚ)) : EngineState :=
  if s.hasVideoElement && s.hasSourceBuffer then
    match buffered with
    | [] => { s with adaptiveMetrics := { s.adaptiveMetrics with bufferHealth := 0 } }
    | r :: rs =>
        let bufferEnd := (List.getLast (r :: rs) (List.cons_ne_nil r rs)).2
        let bufferAhead := bufferEnd - currentTime
        let bufferHealth := min 100 (bufferAhead / s.config.targetBufferLength * 100)
        let s1 := { s with adaptiveMetrics := { s.adaptiveMetrics with bufferHealth := bufferHealth } }
        if bufferAhead < s.config.rebufferThreshold then
          handleRebufferingRisk s1 currentTime (r :: rs)
        else s1
  else s

/-- `handleBufferUpdate` (part_007 lines 479-485), the source buffer's
updateend listener: the pending append (if any) has completed, and when
`isBuffering` was set the flag is cleared, the rebuffering counter is
incremented and the timestamp (`performance.now()`, passed in as `now`)
is logged. -/
def handleBufferUpdate (now : ℚ) (s : EngineState) : EngineState :=
  let s0 := { s with sourceBufferUpdating := false }
  if s0.isBuffering then
    { s0 with
      isBuffering := false
      adaptiveMetrics :=
        { s0.adaptiveMetrics with
          rebufferingEvents := s0.adaptiveMetrics.rebufferingEvents + 1 }
      rebufferingEventLog := s0.rebufferingEventLog ++ [now] }
  else s0

/-- `handleBufferError` (part_007 lines 490-501): sets `isBuffering` and
switches to the first ladder level with a strictly lower bitrate than the
current one, when both exist. -/
def handleBufferError (s : EngineState) : EngineState :=
  let s1 := { s with isBuffering := true }
  match s1.currentQuality with
  | none => s1
  | some currentQuality =>
      match s1.config.qualities.find? (fun q => decide (q.bitrate < currentQuality.bitrate)) with
      | some stableQuality => switchQuality s1 stableQuality
      | none => s1

/-- `loadSegment` (part_007 lines 506-526).  `fetchResult` is the outcome
of the `fetch(segmentUrl)` + `arrayBuffer()` pair, `appendOk` whether the
synchronous `appendBuffer` call succeeded.  When the source buffer is
null or already updating the fetched segment is pushed onto
`segmentQueue` (a fetch failure in that branch is uncaught and rejects
the caller's promise).  In the append branch the try/catch swallows any
failure: it logs and calls `handleBufferError`, and the caller's promise
resolves. -/
def loadSegment (s : EngineState) (fetchResult : Except JsError Segment)
    (appendOk : Bool) (now : ℚ) : Except JsError EngineState :=
  if !s.hasSourceBuffer || s.sourceBufferUpdating then
    match fetchResult with
    | Except.error e => Except.error e
    | Except.ok segment => Except.ok { s with segmentQueue := s.segmentQueue ++ [segment] }
  else
    match fetchResult with
    | Except.error _ => Except.ok (handleBufferError s)
    | Except.ok segment =>
        if appendOk then
          Except.ok
            { s with
              appendedSegments := s.appendedSegments ++ [segment]
              sourceBufferUpdating := true
              lastSegmentTime := now }
        else Except.ok (handleBufferError s)

/-- `getMetrics` (part_007 lines 531-533): returns a copy of the metrics
record. -/
def getMetrics (s : EngineState) : AdaptiveMetrics :=
  s.adaptiveMetrics

/-- `getNetworkMetrics` (part_007 lines 538-540). -/
def getNetworkMetrics (s : EngineState) : NetworkMetrics :=
  s.networkMetrics

/-- `updateCooldown` (part_007 lines 545-549): subtracts 1000 ms while
the cooldown is positive.  Invoked once per second by the
`useAdaptiveStreaming` hook's monitoring interval
(src/hooks/useAdaptiveStreaming.ts line 113). -/
def updateCooldown (s : EngineState) : EngineState :=
  if 0 < s.qualitySwitchCooldown then
    { s with qualitySwitchCooldown := s.qualitySwitchCooldown - 1000 }
  else s

/-! ## Tick model

Three periodic schedules drive the engine (part_007 lines 201-213 and
useAdaptiveStreaming.ts lines 105-141), all single-threaded: the hook's
1000 ms interval (reads the metrics, then `updateCooldown`), the engine's
`networkCheckInterval` interval (`updateNetworkMetrics` then
`adaptQuality`), and the engine's 1000 ms buffer interval
(`monitorBufferHealth`; the following `this.preventRebuffering()` call
names a method that does not exist, so it throws a TypeError out of the
interval callback after the monitoring work is done and changes no
state).  A tick of the model is one 1000 ms slot: the cooldown decrement,
then the network-check firings that fall inside the slot (zero or more,
covering any `networkCheckInterval`), then the buffer check. -/

/-- External inputs of one 1000 ms tick: the probe data of each
network-check firing inside the slot, and the playback position and
buffered ranges the buffer check observes. -/
structure TickInput where
  networkEvents : List ProbeInput
  currentTime : ℚ
  buffered : List (ℚ × ℚ)

/-- One firing of the network-check interval (part_007 lines 203-206). -/
def networkTick (s : EngineState) (inp : ProbeInput) : EngineState :=
  adaptQuality (updateNetworkMetrics s inp)

/-- The tick state after the cooldown decrement and the slot's
network-check firings, before the buffer check. -/
def tickAfterNetwork (inp : TickInput) (s : EngineState) : EngineState :=
  inp.networkEvents.foldl networkTick (updateCooldown s)

/-- One full 1000 ms tick. -/
def engineTick (inp : TickInput) (s : EngineState) : EngineState :=
  monitorBufferHealth (tickAfterNetwork inp s) inp.currentTime inp.buffered

/-- The trace of tick states from `s0` under the tick inputs `inps`. -/
def engineTrace (inps : ℕ → TickInput) (s0 : EngineState) : ℕ → EngineState
  | 0 => s0
  | n + 1 => engineTick (inps n) (engineTrace inps s0 n)

/-- An evaluation-driven switch happened during a tick: the
`qualitySwitches` counter grew across the tick's `adaptQuality`
firings. -/
def TickEvalSwitched (inp : TickInput) (s : EngineState) : Prop :=
  (updateCooldown s).adaptiveMetrics.qualitySwitches <
    (tickAfterNetwork inp s).adaptiveMetrics.qualitySwitches

/-- One externally observable operation of the engine: a monitoring tick,
a source-buffer updateend or error event, the initialize-time
attach + source-buffer setup, or a `loadSegment` call that completed
without rejecting.  (`getMetrics`/`getNetworkMetrics` are pure reads and
`destroy` only clears the unmodelled timer handles.) -/
inductive EngineStep : EngineState → EngineState → Prop where
  | tick (inp : TickInput) (s : EngineState) : EngineStep s (engineTick inp s)
  | bufferUpdate (now : ℚ) (s : EngineState) : EngineStep s (handleBufferUpdate now s)
  | bufferError (s : EngineState) : EngineStep s (handleBufferError s)
  | attach (s : EngineState) :
      EngineStep s { s with hasVideoElement := true, hasMediaSource := true }
  | setup (s s' : EngineState) (h : setupSourceBuffer s = Except.ok s') : EngineStep s s'
  | load (fetchResult : Except JsError Segment) (appendOk : Bool) (now : ℚ)
      (s s' : EngineState) (h : loadSegment s fetchResult appendOk now = Except.ok s') :
      EngineStep s s'

/-- Engine states reachable from a freshly constructed engine. -/
def Reachable (config : AdaptiveStreamingConfig) (s : EngineState) : Prop :=
  Relation.ReflTransGen EngineStep (mkEngine config) s

/-! ## The spec-side user-experience classifier (for claim C7)

The engine never computes such a classification; this definition follows
the spec's words only, to be compared with what the code returns. -/

/-- Modelled from the spec: "userExperienceClass (enum:
excellent|good|fair|poor, derived from bufferHealthPct and
networkStabilityPct via fixed thresholds: ≥90 & ≥90 → excellent;
≥70 & ≥70 → good; ≥50 & ≥50 → fair; else poor)". -/
def specUserExperienceClass (bufferHealth networkStability : ℚ) : UserExperience :=
  if 90 ≤ bufferHealth ∧ 90 ≤ networkStability then UserExperience.excellent
  else if 70 ≤ bufferHealth ∧ 70 ≤ networkStability then UserExperience.good
  else if 50 ≤ bufferHealth ∧ 50 ≤ networkStability then UserExperience.fair
  else UserExperience.poor

/-! ## Concrete fixtures

A three-level ladder (ascending bitrates, the spec's Scenario A ladder)
and engine states used by the witnesses and counterexamples. -/

/-- 240p at 400 kbps. -/
def q240 : QualityLevel :=
  { id := "240p"
    bitrate := 400000
    resolutionWidth := 426
    resolutionHeight := 240
    codec := "avc1.42E01E"
    mimeType := "video/mp4"
    url := "https://cdn.example/240p"
    bandwidth := 400000 }

/-- 720p at 2.5 Mbps. -/
def q720 : QualityLevel :=
  { id := "720p"
    bitrate := 2500000
    resolutionWidth := 1280
    resolutionHeight := 720
    codec := "avc1.4D401F"
    mimeType := "video/mp4"
    url := "https://cdn.example/720p"
    bandwidth := 2500000 }

/-- 1080p at 5 Mbps. -/
def q1080 : QualityLevel :=
  { id := "1080p"
    bitrate := 5000000
    resolutionWidth := 1920
    resolutionHeight := 1080
    codec := "avc1.640028"
    mimeType := "video/mp4"
    url := "https://cdn.example/1080p"
    bandwidth := 5000000 }

/-- A configuration with the Scenario A ladder and the spec's default
intervals and thresholds. -/
def baseConfig : AdaptiveStreamingConfig :=
  { qualities := [q240, q720, q1080]
    networkCheckInterval := 2000
    targetBufferLength := 10
    maxBufferLength := 30
    minBufferLength := 5
    lowLatencyMode := false
    segmentDuration := 4
    rebufferThreshold := 2
    qualitySwitchThreshold := 0.3 }

/-- An initialized engine: attached, source buffer created, currently at
the top 1080p level, playing. -/
def engineReady : EngineState :=
  { mkEngine baseConfig with
    hasVideoElement := true
    hasMediaSource := true
    hasSourceBuffer := true
    currentQuality := some q1080
    isPlaying := true
    adaptiveMetrics := { initializeAdaptiveMetrics with currentQuality := "1080p" } }

/-! ## Claim C1 — selector picks the highest fitting level, lowest as fallback -/

theorem selectQualityLoop_mem (t : ℚ) (qs : List QualityLevel) :
    ∀ sel : QualityLevel, selectQualityLoop t sel qs ∈ sel :: qs := by
  induction qs with
  | nil => intro sel; simp [selectQualityLoop]
  | cons q rest ih =>
      intro sel
      by_cases hq : q.bitrate ≤ t
      · have h := ih q
        simp only [selectQualityLoop, if_pos hq]
        simp only [List.mem_cons] at h ⊢
        tauto
      · simp [selectQualityLoop, if_neg hq]

theorem selectQualityLoop_fits (t : ℚ) (qs : List QualityLevel) :
    ∀ sel : QualityLevel, sel.bitrate ≤ t → (selectQualityLoop t sel qs).bitrate ≤ t := by
  induction qs with
  | nil => intro sel hsel; simpa [selectQualityLoop] using hsel
  | cons q rest ih =>
      intro sel hsel
      by_cases hq : q.bitrate ≤ t
      · simpa only [selectQualityLoop, if_pos hq] using ih q hq
      · simpa [selectQualityLoop, if_neg hq] using hsel

theorem selectQualityLoop_max (t : ℚ) (qs : List QualityLevel) :
    ∀ sel : QualityLevel,
      List.Sorted (fun a b : QualityLevel => a.bitrate ≤ b.bitrate) (sel :: qs) →
      ∀ q ∈ sel :: qs, q.bitrate ≤ t →
        q.bitrate ≤ (selectQualityLoop t sel qs).bitrate := by
  induction qs with
  | nil =>
      intro sel _ q hq _
      simp only [List.mem_singleton] at hq
      subst hq
      simp [selectQualityLoop]
  | cons q rest ih =>
      intro sel hs q' hq' hq't
      have hs1 : List.Sorted (fun a b : QualityLevel => a.bitrate ≤ b.bitrate) (q :: rest) :=
        (List.sorted_cons.mp hs).2
      have hsel_le : ∀ b ∈ q :: rest, sel.bitrate ≤ b.bitrate :=
        (List.sorted_cons.mp hs).1
      by_cases hq : q.bitrate ≤ t
      · simp only [selectQualityLoop, if_pos hq]
        simp only [List.mem_cons] at hq'
        rcases hq' with rfl | hq'
        · exact le_trans (hsel_le q (by simp)) (ih q hs1 q (by simp) hq)
        · exact ih q hs1 q' (by simpa using hq') hq't
      · simp only [selectQualityLoop, if_neg hq]
        simp only [List.mem_cons] at hq'
        rcases hq' with rfl | rfl | hq'
        · exact le_rfl
        · exact absurd hq't hq
        · exact absurd (le_trans ((List.sorted_cons.mp hs1).1 q' hq') hq't) hq

theorem sorted_selfcons (q0 : QualityLevel) (rest : List QualityLevel)
    (h : List.Sorted (fun a b : QualityLevel => a.bitrate ≤ b.bitrate) (q0 :: rest)) :
    List.Sorted (fun a b : QualityLevel => a.bitrate ≤ b.bitrate) (q0 :: q0 :: rest) := by
  refine List.sorted_cons.mpr ⟨?_, h⟩
  intro b hb
  simp only [List.mem_cons] at hb
  rcases hb with rfl | hb
  · exact le_rfl
  · exact (List.sorted_cons.mp h).1 b hb

/-- Claim C1: for every non-empty quality ladder ordered ascending by
bitrate and every network sample, the selected quality solves the
per-tick evaluation's target `min(bandwidth, throughput) * 0.8`: a level
is always returned, it belongs to the ladder, whenever any level fits the
target the returned level fits it and has the greatest bitrate among
fitting levels, and when no level fits the first (lowest) level of the
ladder is returned. -/
theorem C1_selector_highest_fitting_or_lowest (qualities : List QualityLevel)
    (m : NetworkMetrics) (hne : qualities ≠ [])
    (hsorted : List.Sorted (fun a b : QualityLevel => a.bitrate ≤ b.bitrate) qualities) :
    ∃ q, selectQualityForBitrate qualities (min m.bandwidth m.throughput * 0.8) = some q ∧
      q ∈ qualities ∧
      (∀ q' ∈ qualities, q'.bitrate ≤ min m.bandwidth m.throughput * 0.8 →
        q.bitrate ≤ min m.bandwidth m.throughput * 0.8 ∧ q'.bitrate ≤ q.bitrate) ∧
      ((∀ q' ∈ qualities, ¬ q'.bitrate ≤ min m.bandwidth m.throughput * 0.8) →
        qualities.head? = some q) := by
  set t := min m.bandwidth m.throughput * 0.8 with ht
  obtain ⟨q0, rest, rfl⟩ := List.exists_cons_of_ne_nil hne
  refine ⟨selectQualityLoop t q0 (q0 :: rest), rfl, ?_, ?_, ?_⟩
  · have h := selectQualityLoop_mem t (q0 :: rest) q0
    simp only [List.mem_cons] at h ⊢
    tauto
  · intro q' hq' hfit
    have hq0 : q0.bitrate ≤ t := by
      simp only [List.mem_cons] at hq'
      rcases hq' with rfl | hq'
      · exact hfit
      · exact le_trans ((List.sorted_cons.mp hsorted).1 q' hq') hfit
    constructor
    · exact selectQualityLoop_fits t (q0 :: rest) q0 hq0
    · exact selectQualityLoop_max t (q0 :: rest) q0 (sorted_selfcons q0 rest hsorted) q'
        (by simp only [List.mem_cons] at hq' ⊢; tauto) hfit
  · intro hnone
    have hq0 : ¬ q0.bitrate ≤ t := hnone q0 (by simp)
    simp [selectQualityLoop, if_neg hq0]

/-- Scenario A network sample: bandwidth and throughput both 1 Mbps. -/
def scenarioASample : NetworkMetrics :=
  { initializeNetworkMetrics with bandwidth := 1000000, throughput := 1000000 }

/-- Witness for C1 on the Scenario A ladder and sample. -/
theorem C1_selector_highest_fitting_or_lowest_witness :
    ∃ q, selectQualityForBitrate [q240, q720, q1080]
        (min scenarioASample.bandwidth scenarioASample.throughput * 0.8) = some q ∧
      q ∈ [q240, q720, q1080] ∧
      (∀ q' ∈ [q240, q720, q1080],
        q'.bitrate ≤ min scenarioASample.bandwidth scenarioASample.throughput * 0.8 →
        q.bitrate ≤ min scenarioASample.bandwidth scenarioASample.throughput * 0.8 ∧
          q'.bitrate ≤ q.bitrate) ∧
      ((∀ q' ∈ [q240, q720, q1080],
        ¬ q'.bitrate ≤ min scenarioASample.bandwidth scenarioASample.throughput * 0.8) →
        ([q240, q720, q1080].head? = some q)) :=
  C1_selector_highest_fitting_or_lowest [q240, q720, q1080] scenarioASample
    (by simp)
    (by simp [List.sorted_cons, q240, q720, q1080]; norm_num)

/-! ## Claim C9 — empty ladder fails setup with the configuration error -/

/-- A configuration whose quality ladder is empty. -/
def emptyLadderConfig : AdaptiveStreamingConfig :=
  { baseConfig with qualities := [] }

/-- Claim C9: with an empty quality ladder, the initialize-time source
buffer setup fails with the no-suitable-quality configuration error (the
code's realization of the spec's ConfigurationError) — it does not
succeed, do nothing, or fail with the media-source error. -/
theorem C9_empty_ladder_fails_configuration (s : EngineState)
    (hempty : s.config.qualities = []) (hms : s.hasMediaSource = true) :
    setupSourceBuffer s = Except.error EngineError.noSuitableQualityLevelFound := by
  simp [setupSourceBuffer, selectInitialQuality, hempty, hms]

/-- Witness for C9: a freshly constructed engine over the empty ladder,
attached to its media source. -/
theorem C9_empty_ladder_fails_configuration_witness :
    setupSourceBuffer { mkEngine emptyLadderConfig with hasMediaSource := true } =
      Except.error EngineError.noSuitableQualityLevelFound :=
  C9_empty_ladder_fails_configuration
    { mkEngine emptyLadderConfig with hasMediaSource := true } rfl rfl

/-! ## Claim C5 — buffer health formula (corrected: no clamping at 0) -/

theorem switchQuality_bufferHealth (s : EngineState) (q : QualityLevel) :
    (switchQuality s q).adaptiveMetrics.bufferHealth = s.adaptiveMetrics.bufferHealth := by
  unfold switchQuality
  split <;> rfl

theorem preloadContent_bufferHealth (s : EngineState) :
    (preloadContent s).adaptiveMetrics.bufferHealth = s.adaptiveMetrics.bufferHealth := by
  unfold preloadContent
  cases s.currentQuality <;> rfl

theorem handleRebufferingRisk_bufferHealth (s : EngineState) (currentTime : ℚ)
    (buffered : List (ℚ × ℚ)) :
    (handleRebufferingRisk s currentTime buffered).adaptiveMetrics.bufferHealth =
      s.adaptiveMetrics.bufferHealth := by
  unfold handleRebufferingRisk
  split
  · rfl
  · split
    · rw [preloadContent_bufferHealth]
    · split
      · split
        · split
          · rw [switchQuality_bufferHealth, preloadContent_bufferHealth]
          · rw [preloadContent_bufferHealth, switchQuality_bufferHealth]
        · rw [preloadContent_bufferHealth]
      · rw [preloadContent_bufferHealth]

/-- Claim C5, amended: with the engine attached, zero buffered ranges set
the health to 0, and otherwise the health is
`min 100 ((end of last range - position) / targetBufferLength * 100)` —
at most 100, but the buffered-ahead term is the end of the LAST range
minus the position, with no clamping at 0, so the health is negative
whenever the position is beyond the end of the last buffered range. -/
theorem C5_buffer_health_formula (s : EngineState) (currentTime : ℚ)
    (buffered : List (ℚ × ℚ)) (hv : s.hasVideoElement = true)
    (hb : s.hasSourceBuffer = true) :
    ((monitorBufferHealth s currentTime []).adaptiveMetrics.bufferHealth = 0) ∧
    (∀ (r : ℚ × ℚ) (rs : List (ℚ × ℚ)), buffered = r :: rs →
      (monitorBufferHealth s currentTime buffered).adaptiveMetrics.bufferHealth =
        min 100 (((List.getLast (r :: rs) (List.cons_ne_nil r rs)).2 - currentTime) /
          s.config.targetBufferLength * 100)) ∧
    (monitorBufferHealth s currentTime buffered).adaptiveMetrics.bufferHealth ≤ 100 := by
  have hguard : (s.hasVideoElement && s.hasSourceBuffer) = true := by
    rw [hv, hb]; rfl
  refine ⟨by simp [monitorBufferHealth, hguard], ?_, ?_⟩
  · intro r rs hrr
    subst hrr
    simp only [monitorBufferHealth, hguard, if_pos]
    split
    · rw [handleRebufferingRisk_bufferHealth]
    · rfl
  · rcases buffered with _ | ⟨r, rs⟩
    · simp [monitorBufferHealth, hguard]
    · simp only [monitorBufferHealth, hguard, if_pos]
      split
      · rw [handleRebufferingRisk_bufferHealth]
        exact min_le_left _ _
      · exact min_le_left _ _

/-- Witness for C5 (amended): the ready engine, position 1 s, one
buffered range [0, 8]: health is `min 100 ((8 - 1) / 10 * 100) = 70`. -/
theorem C5_buffer_health_formula_witness :
    ((monitorBufferHealth engineReady 1 []).adaptiveMetrics.bufferHealth = 0) ∧
    (∀ (r : ℚ × ℚ) (rs : List (ℚ × ℚ)), [((0 : ℚ), (8 : ℚ))] = r :: rs →
      (monitorBufferHealth engineReady 1 [((0 : ℚ), (8 : ℚ))]).adaptiveMetrics.bufferHealth =
        min 100 (((List.getLast (r :: rs) (List.cons_ne_nil r rs)).2 - 1) /
          engineReady.config.targetBufferLength * 100)) ∧
    (monitorBufferHealth engineReady 1 [((0 : ℚ), (8 : ℚ))]).adaptiveMetrics.bufferHealth ≤ 100 :=
  C5_buffer_health_formula engineReady 1 [((0 : ℚ), (8 : ℚ))] rfl rfl

/-- An engine state mid-buffering-episode (so the rebuffering path leaves
the state alone), used to exhibit the negative buffer health. -/
def c5state : EngineState :=
  { engineReady with isBuffering := true }

/-- Counterexample to C5 as stated: at position 10 with the single
buffered range [0, 5] (the position lies outside every range,
buffered-ahead should be 0 and the health in [0, 100] per the claim), the
code computes health `min 100 ((5 - 10) / 10 * 100) = -50`, which is
negative. -/
theorem C5_counterexample :
    ¬ ((0 : ℚ) ≤ 10 ∧ (10 : ℚ) ≤ 5) ∧
    (monitorBufferHealth c5state 10 [((0 : ℚ), (5 : ℚ))]).adaptiveMetrics.bufferHealth = -50 ∧
    ¬ (0 ≤ (monitorBufferHealth c5state 10 [((0 : ℚ), (5 : ℚ))]).adaptiveMetrics.bufferHealth) := by
  refine ⟨by norm_num, ?_⟩
  have h : (monitorBufferHealth c5state 10 [((0 : ℚ), (5 : ℚ))]).adaptiveMetrics.bufferHealth
      = -50 := by
    simp [monitorBufferHealth, c5state, engineReady, mkEngine, baseConfig,
      handleRebufferingRisk, List.getLast]
    norm_num
  rw [h]
  norm_num

/-! ## Claim C6 — probe failure falls back to a constant, not the last sample -/

theorem calculateNetworkStability_networkMetrics (s : EngineState) :
    (calculateNetworkStability s).networkMetrics = s.networkMetrics := by
  simp only [calculateNetworkStability]
  split <;> rfl

/-- Claim C6, amended: a network-sampling tick whose throughput probe
fails completes without surfacing any error (the transition is total),
and the resulting throughput is the hardcoded conservative constant
1000000 bps (1 Mbps) — not the previous sample's value; the previous
value is retained only when the probe responds but the response is not
ok or the measured duration is not positive. -/
theorem C6_probe_failure_constant_fallback (s : EngineState) (inp : ProbeInput) :
    (inp.probe = none →
      (updateNetworkMetrics s inp).networkMetrics.throughput = 1000000) ∧
    (∀ r : ProbeResponse, inp.probe = some r → ¬ (r.ok = true ∧ 0 < r.durationMs) →
      (updateNetworkMetrics s inp).networkMetrics.throughput =
        s.networkMetrics.throughput) := by
  constructor
  · intro hfail
    unfold updateNetworkMetrics
    rw [calculateNetworkStability_networkMetrics]
    simp only [hfail]
    cases inp.connection <;> rfl
  · intro r hr hnot
    unfold updateNetworkMetrics
    rw [calculateNetworkStability_networkMetrics]
    simp only [hr]
    have hcond : ∀ m : NetworkMetrics,
        measureThroughput m (some r) = if r.ok && decide (0 < r.durationMs) then
          { m with throughput := r.contentLength * 8 / (r.durationMs / 1000) } else m := by
      intro m; rfl
    have hff : (r.ok && decide (0 < r.durationMs)) = false := by
      rcases hok : r.ok with _ | _
      · rfl
      · simp only [Bool.true_and]
        simp only [decide_eq_false_iff_not]
        intro hd
        exact hnot ⟨hok, hd⟩
    cases inp.connection <;> simp [measureThroughput, hff]

/-- A network sample whose last-known throughput is 5 Mbps. -/
def c6metrics : NetworkMetrics :=
  { initializeNetworkMetrics with throughput := 5000000 }

/-- Counterexample to C6 as stated: after a failed probe the throughput
is 1000000, not the previous sample's 5000000. -/
theorem C6_counterexample :
    (measureThroughput c6metrics none).throughput = 1000000 ∧
    c6metrics.throughput = 5000000 ∧
    (measureThroughput c6metrics none).throughput ≠ c6metrics.throughput := by
  refine ⟨rfl, rfl, ?_⟩
  intro h
  simp only [measureThroughput, c6metrics] at h
  norm_num at h

/-- Witness for C6 (amended), at a concrete failing probe input. -/
theorem C6_probe_failure_constant_fallback_witness :
    (((⟨none, none⟩ : ProbeInput).probe = none →
      (updateNetworkMetrics engineReady ⟨none, none⟩).networkMetrics.throughput = 1000000) ∧
    (∀ r : ProbeResponse, (⟨none, none⟩ : ProbeInput).probe = some r →
      ¬ (r.ok = true ∧ 0 < r.durationMs) →
      (updateNetworkMetrics engineReady ⟨none, none⟩).networkMetrics.throughput =
        engineReady.networkMetrics.throughput)) ∧
    (updateNetworkMetrics engineReady ⟨none, none⟩).networkMetrics.throughput = 1000000 :=
  ⟨C6_probe_failure_constant_fallback engineReady ⟨none, none⟩,
    (C6_probe_failure_constant_fallback engineReady ⟨none, none⟩).1 rfl⟩

/-! ## Claim C3 — forced downgrade on rebuffering risk -/

/-- Below-threshold buffered-ahead routes the buffer check into
`handleRebufferingRisk` (after recording the health). -/
theorem monitorBufferHealth_trigger (s : EngineState) (currentTime : ℚ)
    (r : ℚ × ℚ) (rs : List (ℚ × ℚ))
    (hv : s.hasVideoElement = true) (hsb : s.hasSourceBuffer = true)
    (hlow : (List.getLast (r :: rs) (List.cons_ne_nil r rs)).2 - currentTime <
      s.config.rebufferThreshold) :
    monitorBufferHealth s currentTime (r :: rs) =
      handleRebufferingRisk
        { s with
          adaptiveMetrics :=
            { s.adaptiveMetrics with
              bufferHealth :=
                min 100 (((List.getLast (r :: rs) (List.cons_ne_nil r rs)).2 - currentTime) /
                  s.config.targetBufferLength * 100) } } currentTime (r :: rs) := by
  simp only [monitorBufferHealth, hv, hsb, Bool.and_self, if_true, if_pos hlow]

/-- Claim C3, amended: when a buffer-monitor tick observes buffered-ahead
strictly below the rebuffer threshold and no buffering episode is already
in progress, the engine forcibly downgrades: with the current quality at
ladder index i > 0 it ends the tick switched to the level at index i-1
regardless of any active cooldown (no hypothesis constrains
`qualitySwitchCooldown`), with the 2000 ms cooldown re-entered; a
3-segment prefetch request is issued, but at the OLD (pre-switch) quality
whenever the playback position lies inside the first buffered range —
the un-awaited async switch suspends at its internal await before
updating the current quality — and at the resulting lower quality only
otherwise.  At index 0 no switch happens and the prefetch is at the
unchanged current quality. -/
theorem C3_forced_downgrade_one_level (s : EngineState) (currentTime : ℚ)
    (r : ℚ × ℚ) (rs : List (ℚ × ℚ))
    (hv : s.hasVideoElement = true) (hsb : s.hasSourceBuffer = true)
    (hms : s.hasMediaSource = true) (hnb : s.isBuffering = false)
    (cq : QualityLevel) (hcq : s.currentQuality = some cq) (i : ℕ)
    (hidx : s.config.qualities.findIdx? (fun q => some q.id == currentQualityId s) = some i)
    (hlow : (List.getLast (r :: rs) (List.cons_ne_nil r rs)).2 - currentTime <
      s.config.rebufferThreshold) :
    (∀ lowerQuality : QualityLevel, 0 < i →
      s.config.qualities[i - 1]? = some lowerQuality →
      (monitorBufferHealth s currentTime (r :: rs)).currentQuality = some lowerQuality ∧
      (monitorBufferHealth s currentTime (r :: rs)).qualitySwitchCooldown = 2000 ∧
      (monitorBufferHealth s currentTime (r :: rs)).adaptiveMetrics.qualitySwitches =
        s.adaptiveMetrics.qualitySwitches + 1 ∧
      (monitorBufferHealth s currentTime (r :: rs)).prefetchRequests =
        s.prefetchRequests ++
          [((if switchQualitySuspends currentTime (r :: rs) then cq.id
            else lowerQuality.id), 3)]) ∧
    (i = 0 →
      (monitorBufferHealth s currentTime (r :: rs)).currentQuality = some cq ∧
      (monitorBufferHealth s currentTime (r :: rs)).qualitySwitchCooldown =
        s.qualitySwitchCooldown ∧
      (monitorBufferHealth s currentTime (r :: rs)).adaptiveMetrics.qualitySwitches =
        s.adaptiveMetrics.qualitySwitches ∧
      (monitorBufferHealth s currentTime (r :: rs)).prefetchRequests =
        s.prefetchRequests ++ [(cq.id, 3)]) := by
  rw [monitorBufferHealth_trigger s currentTime r rs hv hsb hlow]
  have hidx2 : s.config.qualities.findIdx? (fun q => some q.id == some cq.id) = some i := by
    simpa only [currentQualityId, hcq, Option.map_some'] using hidx
  constructor
  · intro lowerQuality hpos hlq
    cases hsusp : switchQualitySuspends currentTime (r :: rs) with
    | true =>
        simp only [handleRebufferingRisk, hnb, Bool.false_eq_true, if_false,
          currentQualityId, hcq, Option.map_some', hidx2, hpos, if_true, hlq, hsusp,
          eq_self_iff_true, preloadContent, switchQuality, hms, hsb, Bool.and_self]
        exact ⟨trivial, trivial, trivial, trivial⟩
    | false =>
        simp only [handleRebufferingRisk, hnb, Bool.false_eq_true, if_false,
          currentQualityId, hcq, Option.map_some', hidx2, hpos, if_true, hlq, hsusp,
          preloadContent, switchQuality, hms, hsb, Bool.and_self]
        exact ⟨trivial, trivial, trivial, trivial⟩
  · intro hzero
    subst hzero
    simp only [handleRebufferingRisk, hnb, Bool.false_eq_true, if_false, currentQualityId,
      hcq, Option.map_some', hidx2, Nat.lt_irrefl, if_false, preloadContent]
    exact ⟨trivial, trivial, trivial, trivial⟩

/-- An engine mid-cooldown at 1080p, used to witness the forced
downgrade bypassing the cooldown. -/
def c3state : EngineState :=
  { engineReady with qualitySwitchCooldown := 2000 }

/-- Witness for C3 (amended): Scenario C — current quality 1080p (ladder
index 2), position 4 inside the single buffered range [0, 5],
buffered-ahead 1 s below the 2 s threshold, active 2000 ms cooldown; the
forced downgrade lands on 720p with the cooldown reset, and (the switch
having suspended) the 3-segment prefetch is issued at the old 1080p
quality. -/
theorem C3_forced_downgrade_one_level_witness :
    (∀ lowerQuality : QualityLevel, 0 < 2 →
      c3state.config.qualities[2 - 1]? = some lowerQuality →
      (monitorBufferHealth c3state 4 [((0 : ℚ), (5 : ℚ))]).currentQuality = some lowerQuality ∧
      (monitorBufferHealth c3state 4 [((0 : ℚ), (5 : ℚ))]).qualitySwitchCooldown = 2000 ∧
      (monitorBufferHealth c3state 4 [((0 : ℚ), (5 : ℚ))]).adaptiveMetrics.qualitySwitches =
        c3state.adaptiveMetrics.qualitySwitches + 1 ∧
      (monitorBufferHealth c3state 4 [((0 : ℚ), (5 : ℚ))]).prefetchRequests =
        c3state.prefetchRequests ++
          [((if switchQualitySuspends 4 [((0 : ℚ), (5 : ℚ))] then q1080.id
            else lowerQuality.id), 3)]) ∧
    ((2 : ℕ) = 0 →
      (monitorBufferHealth c3state 4 [((0 : ℚ), (5 : ℚ))]).currentQuality = some q1080 ∧
      (monitorBufferHealth c3state 4 [((0 : ℚ), (5 : ℚ))]).qualitySwitchCooldown =
        c3state.qualitySwitchCooldown ∧
      (monitorBufferHealth c3state 4 [((0 : ℚ), (5 : ℚ))]).adaptiveMetrics.qualitySwitches =
        c3state.adaptiveMetrics.qualitySwitches ∧
      (monitorBufferHealth c3state 4 [((0 : ℚ), (5 : ℚ))]).prefetchRequests =
        c3state.prefetchRequests ++ [(q1080.id, 3)]) :=
  C3_forced_downgrade_one_level c3state 4 ((0 : ℚ), (5 : ℚ)) [] rfl rfl rfl rfl
    q1080 rfl 2
    (by simp [c3state, engineReady, mkEngine, baseConfig, currentQualityId,
      List.findIdx?, q240, q720, q1080])
    (by simp [List.getLast, c3state, engineReady, mkEngine, baseConfig]; norm_num)

/-- Counterexample to C3 as stated: on the Scenario C inputs (current
quality 1080p at ladder index 2, position 4 inside the single buffered
range [0, 5], buffered-ahead 1 s below the 2 s threshold) the resulting
quality is 720p, but the un-awaited `switchQuality` suspends at
`await extractBufferSegment` before updating the current quality, so the
prefetch request is issued at the old 1080p quality — not at the
resulting quality. -/
theorem C3_counterexample :
    (monitorBufferHealth c3state 4 [((0 : ℚ), (5 : ℚ))]).currentQuality = some q720 ∧
    (monitorBufferHealth c3state 4 [((0 : ℚ), (5 : ℚ))]).prefetchRequests =
      [("1080p", 3)] ∧
    q720.id = "720p" ∧
    (monitorBufferHealth c3state 4 [((0 : ℚ), (5 : ℚ))]).prefetchRequests ≠
      [("720p", 3)] := by
  have hlow : (List.getLast [((0 : ℚ), (5 : ℚ))]
      (List.cons_ne_nil ((0 : ℚ), (5 : ℚ)) [])).2 - 4 <
      c3state.config.rebufferThreshold := by
    simp [List.getLast, c3state, engineReady, mkEngine, baseConfig]
    norm_num
  have hred := monitorBufferHealth_trigger c3state 4 ((0 : ℚ), (5 : ℚ)) [] rfl rfl hlow
  have hsusp : switchQualitySuspends 4 [((0 : ℚ), (5 : ℚ))] = true := by
    simp [switchQualitySuspends]
    norm_num
  have hcur : (monitorBufferHealth c3state 4 [((0 : ℚ), (5 : ℚ))]).currentQuality =
      some q720 := by
    rw [hred]
    simp [handleRebufferingRisk, currentQualityId, hsusp, preloadContent, switchQuality,
      c3state, engineReady, mkEngine, baseConfig, initializeAdaptiveMetrics,
      List.findIdx?, q240, q720, q1080]
  have hpre : (monitorBufferHealth c3state 4 [((0 : ℚ), (5 : ℚ))]).prefetchRequests =
      [("1080p", 3)] := by
    rw [hred]
    simp [handleRebufferingRisk, currentQualityId, hsusp, preloadContent, switchQuality,
      c3state, engineReady, mkEngine, baseConfig, initializeAdaptiveMetrics,
      List.findIdx?, q240, q720, q1080]
  refine ⟨hcur, hpre, rfl, ?_⟩
  rw [hpre]
  decide

/-! ## Claim C4 — rebuffering counting (corrected: ticks never count) -/

theorem updateCooldown_rebufferingEvents (s : EngineState) :
    (updateCooldown s).adaptiveMetrics.rebufferingEvents =
      s.adaptiveMetrics.rebufferingEvents := by
  unfold updateCooldown
  split <;> rfl

theorem switchQuality_rebufferingEvents (s : EngineState) (q : QualityLevel) :
    (switchQuality s q).adaptiveMetrics.rebufferingEvents =
      s.adaptiveMetrics.rebufferingEvents := by
  unfold switchQuality
  split <;> rfl

theorem preloadContent_rebufferingEvents (s : EngineState) :
    (preloadContent s).adaptiveMetrics.rebufferingEvents =
      s.adaptiveMetrics.rebufferingEvents := by
  unfold preloadContent
  cases s.currentQuality <;> rfl

theorem handleRebufferingRisk_rebufferingEvents (s : EngineState) (currentTime : ℚ)
    (buffered : List (ℚ × ℚ)) :
    (handleRebufferingRisk s currentTime buffered).adaptiveMetrics.rebufferingEvents =
      s.adaptiveMetrics.rebufferingEvents := by
  unfold handleRebufferingRisk
  split
  · rfl
  · split
    · rw [preloadContent_rebufferingEvents]
    · split
      · split
        · split
          · rw [switchQuality_rebufferingEvents, preloadContent_rebufferingEvents]
          · rw [preloadContent_rebufferingEvents, switchQuality_rebufferingEvents]
        · rw [preloadContent_rebufferingEvents]
      · rw [preloadContent_rebufferingEvents]

theorem calculateNetworkStability_rebufferingEvents (s : EngineState) :
    (calculateNetworkStability s).adaptiveMetrics.rebufferingEvents =
      s.adaptiveMetrics.rebufferingEvents := by
  simp only [calculateNetworkStability]
  split <;> rfl

theorem updateNetworkMetrics_rebufferingEvents (s : EngineState) (inp : ProbeInput) :
    (updateNetworkMetrics s inp).adaptiveMetrics.rebufferingEvents =
      s.adaptiveMetrics.rebufferingEvents := by
  simp only [updateNetworkMetrics, calculateNetworkStability_rebufferingEvents]

theorem adaptQuality_rebufferingEvents (s : EngineState) :
    (adaptQuality s).adaptiveMetrics.rebufferingEvents =
      s.adaptiveMetrics.rebufferingEvents := by
  unfold adaptQuality
  cases s.currentQuality <;> dsimp only
  split
  · rfl
  · split
    · rfl
    · split
      · rw [switchQuality_rebufferingEvents]
      · rfl

theorem networkTick_rebufferingEvents (s : EngineState) (p : ProbeInput) :
    (networkTick s p).adaptiveMetrics.rebufferingEvents =
      s.adaptiveMetrics.rebufferingEvents := by
  unfold networkTick
  rw [adaptQuality_rebufferingEvents, updateNetworkMetrics_rebufferingEvents]

theorem foldl_networkTick_rebufferingEvents (evs : List ProbeInput) :
    ∀ t : EngineState, (evs.foldl networkTick t).adaptiveMetrics.rebufferingEvents =
      t.adaptiveMetrics.rebufferingEvents := by
  induction evs with
  | nil => intro t; rfl
  | cons e evs ih =>
      intro t
      rw [List.foldl_cons, ih, networkTick_rebufferingEvents]

theorem monitorBufferHealth_rebufferingEvents (s : EngineState) (currentTime : ℚ)
    (buffered : List (ℚ × ℚ)) :
    (monitorBufferHealth s currentTime buffered).adaptiveMetrics.rebufferingEvents =
      s.adaptiveMetrics.rebufferingEvents := by
  unfold monitorBufferHealth
  split
  · cases buffered with
    | nil => rfl
    | cons r rs =>
        dsimp only
        split
        · rw [handleRebufferingRisk_rebufferingEvents]
        · rfl
  · rfl

theorem engineTick_rebufferingEvents (inp : TickInput) (s : EngineState) :
    (engineTick inp s).adaptiveMetrics.rebufferingEvents =
      s.adaptiveMetrics.rebufferingEvents := by
  unfold engineTick tickAfterNetwork
  rw [monitorBufferHealth_rebufferingEvents, foldl_networkTick_rebufferingEvents,
    updateCooldown_rebufferingEvents]

/-- Claim C4, amended: monitoring ticks never increment
`rebufferingEvents` — a continuous below-threshold period produces zero
increments through the tick path, not exactly one, and no
threshold-times-1.5 hysteresis exists anywhere.  The counter is instead
driven by source-buffer events: a buffer ERROR starts an episode by
setting `isBuffering`, and the next buffer-update (updateend) event
increments the counter exactly once and clears the flag, so one
error-started episode yields exactly one increment no matter how many
update events follow. -/
theorem C4_rebuffering_count_mechanism (inp : TickInput) (s : EngineState)
    (now now2 : ℚ) :
    ((engineTick inp s).adaptiveMetrics.rebufferingEvents =
      s.adaptiveMetrics.rebufferingEvents) ∧
    (s.isBuffering = true →
      (handleBufferUpdate now s).adaptiveMetrics.rebufferingEvents =
        s.adaptiveMetrics.rebufferingEvents + 1 ∧
      (handleBufferUpdate now s).isBuffering = false) ∧
    (s.isBuffering = false →
      (handleBufferUpdate now s).adaptiveMetrics.rebufferingEvents =
        s.adaptiveMetrics.rebufferingEvents) ∧
    (s.isBuffering = true →
      (handleBufferUpdate now2 (handleBufferUpdate now s)).adaptiveMetrics.rebufferingEvents =
        s.adaptiveMetrics.rebufferingEvents + 1) ∧
    ((handleBufferError s).isBuffering = true) := by
  refine ⟨engineTick_rebufferingEvents inp s, ?_, ?_, ?_, ?_⟩
  · intro hb
    simp [handleBufferUpdate, hb]
  · intro hb
    simp [handleBufferUpdate, hb]
  · intro hb
    simp [handleBufferUpdate, hb]
  · unfold handleBufferError
    dsimp only
    split
    · rfl
    · split
      · simp only [switchQuality]
        split <;> rfl
      · rfl

/-- Tick input for the C4 scenario: no network firing, position 0, one
buffered range [0, 1], so buffered-ahead is 1 s — below the 2 s
threshold. -/
def c4inp : TickInput :=
  { networkEvents := [], currentTime := 0, buffered := [((0 : ℚ), (1 : ℚ))] }

/-- Counterexample to C4 as stated: a tick whose buffered-ahead (1 s) is
below the rebuffer threshold (2 s) — a complete one-tick continuous
below-threshold period — leaves `rebufferingEvents` at 0; it is not
incremented exactly once. -/
theorem C4_counterexample :
    ((1 : ℚ) - 0 < engineReady.config.rebufferThreshold) ∧
    engineReady.adaptiveMetrics.rebufferingEvents = 0 ∧
    (engineTick c4inp engineReady).adaptiveMetrics.rebufferingEvents = 0 ∧
    ¬ ((engineTick c4inp engineReady).adaptiveMetrics.rebufferingEvents =
      engineReady.adaptiveMetrics.rebufferingEvents + 1) := by
  have h0 : engineReady.adaptiveMetrics.rebufferingEvents = 0 := rfl
  have h1 := engineTick_rebufferingEvents c4inp engineReady
  refine ⟨by norm_num [engineReady, mkEngine, baseConfig], h0, by rw [h1, h0], ?_⟩
  rw [h1, h0]
  norm_num

/-- Witness for C4 (amended): one buffer-error/buffer-update episode on
the ready engine increments the counter from 0 to exactly 1, and the
below-threshold tick increments nothing. -/
theorem C4_rebuffering_count_mechanism_witness :
    ((engineTick c4inp { engineReady with isBuffering := true }).adaptiveMetrics.rebufferingEvents =
      ({ engineReady with isBuffering := true } : EngineState).adaptiveMetrics.rebufferingEvents) ∧
    (handleBufferUpdate 7 { engineReady with isBuffering := true }).adaptiveMetrics.rebufferingEvents =
      ({ engineReady with isBuffering := true } : EngineState).adaptiveMetrics.rebufferingEvents + 1 ∧
    (handleBufferUpdate 7 { engineReady with isBuffering := true }).isBuffering = false :=
  ⟨(C4_rebuffering_count_mechanism c4inp { engineReady with isBuffering := true } 7 8).1,
    (C4_rebuffering_count_mechanism c4inp { engineReady with isBuffering := true } 7 8).2.1 rfl⟩

/-! ## Claim C7 — userExperience is never recomputed (corrected) -/

theorem updateCooldown_userExperience (s : EngineState) :
    (updateCooldown s).adaptiveMetrics.userExperience =
      s.adaptiveMetrics.userExperience := by
  unfold updateCooldown
  split <;> rfl

theorem switchQuality_userExperience (s : EngineState) (q : QualityLevel) :
    (switchQuality s q).adaptiveMetrics.userExperience =
      s.adaptiveMetrics.userExperience := by
  unfold switchQuality
  split <;> rfl

theorem preloadContent_userExperience (s : EngineState) :
    (preloadContent s).adaptiveMetrics.userExperience =
      s.adaptiveMetrics.userExperience := by
  unfold preloadContent
  cases s.currentQuality <;> rfl

theorem handleRebufferingRisk_userExperience (s : EngineState) (currentTime : ℚ)
    (buffered : List (ℚ × ℚ)) :
    (handleRebufferingRisk s currentTime buffered).adaptiveMetrics.userExperience =
      s.adaptiveMetrics.userExperience := by
  unfold handleRebufferingRisk
  split
  · rfl
  · split
    · rw [preloadContent_userExperience]
    · split
      · split
        · split
          · rw [switchQuality_userExperience, preloadContent_userExperience]
          · rw [preloadContent_userExperience, switchQuality_userExperience]
        · rw [preloadContent_userExperience]
      · rw [preloadContent_userExperience]

theorem calculateNetworkStability_userExperience (s : EngineState) :
    (calculateNetworkStability s).adaptiveMetrics.userExperience =
      s.adaptiveMetrics.userExperience := by
  simp only [calculateNetworkStability]
  split <;> rfl

theorem updateNetworkMetrics_userExperience (s : EngineState) (inp : ProbeInput) :
    (updateNetworkMetrics s inp).adaptiveMetrics.userExperience =
      s.adaptiveMetrics.userExperience := by
  simp only [updateNetworkMetrics, calculateNetworkStability_userExperience]

theorem adaptQuality_userExperience (s : EngineState) :
    (adaptQuality s).adaptiveMetrics.userExperience =
      s.adaptiveMetrics.userExperience := by
  unfold adaptQuality
  cases s.currentQuality <;> dsimp only
  split
  · rfl
  · split
    · rfl
    · split
      · rw [switchQuality_userExperience]
      · rfl

theorem networkTick_userExperience (s : EngineState) (p : ProbeInput) :
    (networkTick s p).adaptiveMetrics.userExperience =
      s.adaptiveMetrics.userExperience := by
  unfold networkTick
  rw [adaptQuality_userExperience, updateNetworkMetrics_userExperience]

theorem foldl_networkTick_userExperience (evs : List ProbeInput) :
    ∀ t : EngineState, (evs.foldl networkTick t).adaptiveMetrics.userExperience =
      t.adaptiveMetrics.userExperience := by
  induction evs with
  | nil => intro t; rfl
  | cons e evs ih =>
      intro t
      rw [List.foldl_cons, ih, networkTick_userExperience]

theorem monitorBufferHealth_userExperience (s : EngineState) (currentTime : ℚ)
    (buffered : List (ℚ × ℚ)) :
    (monitorBufferHealth s currentTime buffered).adaptiveMetrics.userExperience =
      s.adaptiveMetrics.userExperience := by
  unfold monitorBufferHealth
  split
  · cases buffered with
    | nil => rfl
    | cons r rs =>
        dsimp only
        split
        · rw [handleRebufferingRisk_userExperience]
        · rfl
  · rfl

theorem engineTick_userExperience (inp : TickInput) (s : EngineState) :
    (engineTick inp s).adaptiveMetrics.userExperience =
      s.adaptiveMetrics.userExperience := by
  unfold engineTick tickAfterNetwork
  rw [monitorBufferHealth_userExperience, foldl_networkTick_userExperience,
    updateCooldown_userExperience]

theorem handleBufferUpdate_userExperience (now : ℚ) (s : EngineState) :
    (handleBufferUpdate now s).adaptiveMetrics.userExperience =
      s.adaptiveMetrics.userExperience := by
  unfold handleBufferUpdate
  dsimp only
  split <;> rfl

theorem handleBufferError_userExperience (s : EngineState) :
    (handleBufferError s).adaptiveMetrics.userExperience =
      s.adaptiveMetrics.userExperience := by
  unfold handleBufferError
  dsimp only
  split
  · rfl
  · split
    · simp only [switchQuality]
      split <;> rfl
    · rfl

theorem setupSourceBuffer_userExperience (s s' : EngineState)
    (h : setupSourceBuffer s = Except.ok s') :
    s'.adaptiveMetrics.userExperience = s.adaptiveMetrics.userExperience := by
  unfold setupSourceBuffer at h
  split at h
  · cases hsel : selectInitialQuality s with
    | none => rw [hsel] at h; cases h
    | some q =>
        rw [hsel] at h
        injection h with h2
        subst h2
        rfl
  · cases h

theorem loadSegment_userExperience (s s' : EngineState)
    (fetchResult : Except JsError Segment) (appendOk : Bool) (now : ℚ)
    (h : loadSegment s fetchResult appendOk now = Except.ok s') :
    s'.adaptiveMetrics.userExperience = s.adaptiveMetrics.userExperience := by
  unfold loadSegment at h
  split at h
  · split at h
    · cases h
    · injection h with h2
      subst h2
      rfl
  · split at h
    · injection h with h2
      subst h2
      exact handleBufferError_userExperience s
    · split at h
      · injection h with h2
        subst h2
        rfl
      · injection h with h2
        subst h2
        exact handleBufferError_userExperience s

theorem engineStep_userExperience (s s' : EngineState) (h : EngineStep s s') :
    s'.adaptiveMetrics.userExperience = s.adaptiveMetrics.userExperience := by
  cases h with
  | tick inp s => exact engineTick_userExperience inp s
  | bufferUpdate now s => exact handleBufferUpdate_userExperience now s
  | bufferError s => exact handleBufferError_userExperience s
  | attach s => rfl
  | setup s s' hset => exact setupSourceBuffer_userExperience s s' hset
  | load fetchResult appendOk now s s' hload =>
      exact loadSegment_userExperience s s' fetchResult appendOk now hload

/-- Claim C7, amended: on every reachable engine state, the
`userExperience` field returned by `getMetrics` is the constant `good`
assigned at construction; no operation ever recomputes it, and in
particular it is not derived from bufferHealth/networkStability via the
90/70/50 thresholds. -/
theorem C7_user_experience_constant_good (config : AdaptiveStreamingConfig)
    (s : EngineState) (h : Reachable config s) :
    (getMetrics s).userExperience = UserExperience.good := by
  unfold Reachable at h
  induction h with
  | refl => rfl
  | tail hab hbc ih =>
      unfold getMetrics at ih ⊢
      rw [engineStep_userExperience _ _ hbc]
      exact ih

/-- Witness for C7 (amended) at the freshly constructed engine. -/
theorem C7_user_experience_constant_good_witness :
    (getMetrics (mkEngine baseConfig)).userExperience = UserExperience.good :=
  C7_user_experience_constant_good baseConfig (mkEngine baseConfig)
    Relation.ReflTransGen.refl

/-- The engine right after `initialize` attaches the media source. -/
def c7attach : EngineState :=
  { mkEngine baseConfig with hasVideoElement := true, hasMediaSource := true }

/-- The engine after `setupSourceBuffer` picked the conservative 240p
initial quality (bandwidth metric still 0). -/
def c7ready : EngineState :=
  { c7attach with
    currentQuality := some q240
    hasSourceBuffer := true
    adaptiveMetrics := { initializeAdaptiveMetrics with currentQuality := "240p" } }

/-- A buffer-check tick observing no buffered ranges. -/
def c7tick : TickInput :=
  { networkEvents := [], currentTime := 0, buffered := [] }

/-- Counterexample to C7 as stated: after the reachable sequence
construct → attach → setup → tick-with-empty-buffer, bufferHealth is 0
and networkStability is 100, so the spec's threshold classification says
`poor`, but `getMetrics` reports the constant `good`. -/
theorem C7_counterexample :
    Reachable baseConfig (engineTick c7tick c7ready) ∧
    (getMetrics (engineTick c7tick c7ready)).bufferHealth = 0 ∧
    (getMetrics (engineTick c7tick c7ready)).networkStability = 100 ∧
    (getMetrics (engineTick c7tick c7ready)).userExperience = UserExperience.good ∧
    specUserExperienceClass (getMetrics (engineTick c7tick c7ready)).bufferHealth
      (getMetrics (engineTick c7tick c7ready)).networkStability = UserExperience.poor ∧
    (getMetrics (engineTick c7tick c7ready)).userExperience ≠
      specUserExperienceClass (getMetrics (engineTick c7tick c7ready)).bufferHealth
        (getMetrics (engineTick c7tick c7ready)).networkStability := by
  have hsetup : setupSourceBuffer c7attach = Except.ok c7ready := by
    rfl
  have hreach : Reachable baseConfig (engineTick c7tick c7ready) :=
    Relation.ReflTransGen.tail (Relation.ReflTransGen.tail
      (Relation.ReflTransGen.single
        (EngineStep.attach (mkEngine baseConfig) :
          EngineStep (mkEngine baseConfig) c7attach))
      (EngineStep.setup c7attach c7ready hsetup))
      (EngineStep.tick c7tick c7ready)
  have hbh : (getMetrics (engineTick c7tick c7ready)).bufferHealth = 0 := rfl
  have hns : (getMetrics (engineTick c7tick c7ready)).networkStability = 100 := rfl
  have hux : (getMetrics (engineTick c7tick c7ready)).userExperience =
    UserExperience.good := rfl
  have hspec : specUserExperienceClass (0 : ℚ) (100 : ℚ) = UserExperience.poor := by
    norm_num [specUserExperienceClass]
  refine ⟨hreach, hbh, hns, hux, ?_, ?_⟩
  · rw [hbh, hns]
    exact hspec
  · rw [hbh, hns, hux, hspec]
    decide

/-! ## Claim C8 — loadSegment queues when busy, but swallows failures -/

theorem handleBufferError_appendedSegments (s : EngineState) :
    (handleBufferError s).appendedSegments = s.appendedSegments := by
  unfold handleBufferError
  dsimp only
  split
  · rfl
  · split
    · simp only [switchQuality]
      split <;> rfl
    · rfl

theorem handleBufferError_segmentQueue (s : EngineState) :
    (handleBufferError s).segmentQueue = s.segmentQueue := by
  unfold handleBufferError
  dsimp only
  split
  · rfl
  · split
    · simp only [switchQuality]
      split <;> rfl
    · rfl

theorem handleBufferError_sourceBufferUpdating (s : EngineState)
    (h : s.sourceBufferUpdating = false) :
    (handleBufferError s).sourceBufferUpdating = false := by
  unfold handleBufferError
  dsimp only
  split
  · exact h
  · split
    · simp only [switchQuality]
      split
      · rfl
      · exact h
    · exact h

theorem handleBufferError_isBuffering (s : EngineState) :
    (handleBufferError s).isBuffering = true := by
  unfold handleBufferError
  dsimp only
  split
  · rfl
  · split
    · simp only [switchQuality]
      split <;> rfl
    · rfl

/-- Claim C8, amended: while an append is in flight (or the buffer is
absent) `loadSegment` queues the fetched segment and appends nothing, so
no second concurrent append occurs; but a fetch/append failure in the
append path is NOT surfaced as an error to the caller: the try/catch
swallows it, runs `handleBufferError` (which sets `isBuffering` and may
switch down a quality) and the call resolves successfully.  No internal
retry happens and the state stays consistent — the appended-segments log,
the queue and the idle in-flight flag are unchanged by a failure.  Only a
fetch failure in the busy/queueing branch propagates to the caller. -/
theorem C8_load_queues_but_swallows_errors (s : EngineState) (seg : Segment)
    (e : JsError) (appendOk : Bool) (now : ℚ) :
    ((!s.hasSourceBuffer || s.sourceBufferUpdating) = true →
      (loadSegment s (Except.ok seg) appendOk now =
        Except.ok { s with segmentQueue := s.segmentQueue ++ [seg] }) ∧
      (loadSegment s (Except.error e) appendOk now = Except.error e)) ∧
    ((!s.hasSourceBuffer || s.sourceBufferUpdating) = false →
      (loadSegment s (Except.error e) appendOk now =
        Except.ok (handleBufferError s) ∧
       (handleBufferError s).appendedSegments = s.appendedSegments ∧
       (handleBufferError s).segmentQueue = s.segmentQueue ∧
       (handleBufferError s).sourceBufferUpdating = false ∧
       (handleBufferError s).isBuffering = true) ∧
      (appendOk = true →
        loadSegment s (Except.ok seg) appendOk now =
          Except.ok
            { s with
              appendedSegments := s.appendedSegments ++ [seg]
              sourceBufferUpdating := true
              lastSegmentTime := now }) ∧
      (appendOk = false →
        loadSegment s (Except.ok seg) appendOk now =
          Except.ok (handleBufferError s))) := by
  constructor
  · intro hbusy
    exact ⟨by simp [loadSegment, hbusy], by simp [loadSegment, hbusy]⟩
  · intro hidle
    have hnupd : s.sourceBufferUpdating = false := by
      rcases Bool.or_eq_false_iff.mp hidle with ⟨_, h2⟩
      exact h2
    refine ⟨⟨by simp [loadSegment, hidle], handleBufferError_appendedSegments s,
      handleBufferError_segmentQueue s, handleBufferError_sourceBufferUpdating s hnupd,
      handleBufferError_isBuffering s⟩, ?_, ?_⟩
    · intro ha
      simp [loadSegment, hidle, ha]
    · intro ha
      simp [loadSegment, hidle, ha]

/-- Counterexample to C8 as stated: on the idle attached engine, a
failing fetch makes `loadSegment` resolve successfully (with
`handleBufferError` applied) instead of surfacing a load error. -/
theorem C8_counterexample :
    engineReady.hasSourceBuffer = true ∧
    engineReady.sourceBufferUpdating = false ∧
    loadSegment engineReady (Except.error "fetch failed") true 0 =
      Except.ok (handleBufferError engineReady) :=
  ⟨rfl, rfl, rfl⟩

/-- An engine with an append in flight. -/
def c8busy : EngineState :=
  { engineReady with sourceBufferUpdating := true }

/-- Witness for C8 (amended): with an append in flight the fetched
segment 42 is queued; idle, a failing fetch resolves successfully. -/
theorem C8_load_queues_but_swallows_errors_witness :
    (loadSegment c8busy (Except.ok 42) true 0 =
      Except.ok { c8busy with segmentQueue := c8busy.segmentQueue ++ [42] }) ∧
    (loadSegment engineReady (Except.error "fetch failed") true 0 =
      Except.ok (handleBufferError engineReady)) :=
  ⟨((C8_load_queues_but_swallows_errors c8busy 42 "fetch failed" true 0).1 rfl).1,
    (((C8_load_queues_but_swallows_errors engineReady 42 "fetch failed" true 0).2 rfl).1).1⟩

/-! ## Claim C10 — the segment queue is write-only: appended, never read

Two facts formalize the claim.  First, every engine operation leaves the
existing queue entries in place (the new queue extends the old one).
Second, every operation commutes with replacing the queue contents: the
rest of the state it produces is identical whatever the queue holds, so
no operation ever reads the queue — in particular nothing ever moves a
queued segment into the source buffer. -/

theorem updateCooldown_segmentQueue (s : EngineState) :
    (updateCooldown s).segmentQueue = s.segmentQueue := by
  unfold updateCooldown
  split <;> rfl

theorem switchQuality_segmentQueue (s : EngineState) (nq : QualityLevel) :
    (switchQuality s nq).segmentQueue = s.segmentQueue := by
  unfold switchQuality
  split <;> rfl

theorem preloadContent_segmentQueue (s : EngineState) :
    (preloadContent s).segmentQueue = s.segmentQueue := by
  unfold preloadContent
  cases s.currentQuality <;> rfl

theorem handleRebufferingRisk_segmentQueue (s : EngineState) (currentTime : ℚ)
    (buffered : List (ℚ × ℚ)) :
    (handleRebufferingRisk s currentTime buffered).segmentQueue = s.segmentQueue := by
  unfold handleRebufferingRisk
  split
  · rfl
  · split
    · rw [preloadContent_segmentQueue]
    · split
      · split
        · split
          · rw [switchQuality_segmentQueue, preloadContent_segmentQueue]
          · rw [preloadContent_segmentQueue, switchQuality_segmentQueue]
        · rw [preloadContent_segmentQueue]
      · rw [preloadContent_segmentQueue]

theorem calculateNetworkStability_segmentQueue (s : EngineState) :
    (calculateNetworkStability s).segmentQueue = s.segmentQueue := by
  simp only [calculateNetworkStability]
  split <;> rfl

theorem updateNetworkMetrics_segmentQueue (s : EngineState) (inp : ProbeInput) :
    (updateNetworkMetrics s inp).segmentQueue = s.segmentQueue := by
  simp only [updateNetworkMetrics, calculateNetworkStability_segmentQueue]

theorem adaptQuality_segmentQueue (s : EngineState) :
    (adaptQuality s).segmentQueue = s.segmentQueue := by
  unfold adaptQuality
  cases s.currentQuality <;> dsimp only
  split
  · rfl
  · split
    · rfl
    · split
      · rw [switchQuality_segmentQueue]
      · rfl

theorem networkTick_segmentQueue (s : EngineState) (p : ProbeInput) :
    (networkTick s p).segmentQueue = s.segmentQueue := by
  unfold networkTick
  rw [adaptQuality_segmentQueue, updateNetworkMetrics_segmentQueue]

theorem foldl_networkTick_segmentQueue (evs : List ProbeInput) :
    ∀ t : EngineState, (evs.foldl networkTick t).segmentQueue = t.segmentQueue := by
  induction evs with
  | nil => intro t; rfl
  | cons e evs ih =>
      intro t
      rw [List.foldl_cons, ih, networkTick_segmentQueue]

theorem monitorBufferHealth_segmentQueue (s : EngineState) (currentTime : ℚ)
    (buffered : List (ℚ × ℚ)) :
    (monitorBufferHealth s currentTime buffered).segmentQueue = s.segmentQueue := by
  unfold monitorBufferHealth
  split
  · cases buffered with
    | nil => rfl
    | cons r rs =>
        dsimp only
        split
        · rw [handleRebufferingRisk_segmentQueue]
        · rfl
  · rfl

theorem engineTick_segmentQueue (inp : TickInput) (s : EngineState) :
    (engineTick inp s).segmentQueue = s.segmentQueue := by
  unfold engineTick tickAfterNetwork
  rw [monitorBufferHealth_segmentQueue, foldl_networkTick_segmentQueue,
    updateCooldown_segmentQueue]

theorem handleBufferUpdate_segmentQueue (now : ℚ) (s : EngineState) :
    (handleBufferUpdate now s).segmentQueue = s.segmentQueue := by
  unfold handleBufferUpdate
  dsimp only
  split <;> rfl

theorem setupSourceBuffer_segmentQueue (s s' : EngineState)
    (h : setupSourceBuffer s = Except.ok s') :
    s'.segmentQueue = s.segmentQueue := by
  unfold setupSourceBuffer at h
  split at h
  · cases hsel : selectInitialQuality s with
    | none => rw [hsel] at h; cases h
    | some q =>
        rw [hsel] at h
        injection h with h2
        subst h2
        rfl
  · cases h

theorem updateCooldown_queue_comm (s : EngineState) (q : List Segment) :
    updateCooldown { s with segmentQueue := q } =
      { updateCooldown s with segmentQueue := q } := by
  cases s
  unfold updateCooldown
  dsimp only
  split <;> rfl

theorem switchQuality_queue_comm (s : EngineState) (nq : QualityLevel)
    (q : List Segment) :
    switchQuality { s with segmentQueue := q } nq =
      { switchQuality s nq with segmentQueue := q } := by
  cases s
  unfold switchQuality
  dsimp only
  split <;> rfl

theorem adaptQuality_queue_comm (s : EngineState) (q : List Segment) :
    adaptQuality { s with segmentQueue := q } =
      { adaptQuality s with segmentQueue := q } := by
  cases s
  unfold adaptQuality switchQuality
  dsimp only
  repeat' split <;> try rfl

theorem updateNetworkMetrics_queue_comm (s : EngineState) (inp : ProbeInput)
    (q : List Segment) :
    updateNetworkMetrics { s with segmentQueue := q } inp =
      { updateNetworkMetrics s inp with segmentQueue := q } := by
  cases s
  unfold updateNetworkMetrics calculateNetworkStability measureThroughput bitrateOfId
  dsimp only
  repeat' split <;> try rfl

theorem networkTick_queue_comm (t : EngineState) (p : ProbeInput) (q : List Segment) :
    networkTick { t with segmentQueue := q } p =
      { networkTick t p with segmentQueue := q } := by
  unfold networkTick
  rw [updateNetworkMetrics_queue_comm, adaptQuality_queue_comm]

theorem foldl_networkTick_queue_comm (evs : List ProbeInput) :
    ∀ (t : EngineState) (q : List Segment),
      evs.foldl networkTick { t with segmentQueue := q } =
        { evs.foldl networkTick t with segmentQueue := q } := by
  induction evs with
  | nil => intro t q; rfl
  | cons e evs ih =>
      intro t q
      rw [List.foldl_cons, List.foldl_cons, networkTick_queue_comm, ih]

theorem preloadContent_queue_comm (s : EngineState) (q : List Segment) :
    preloadContent { s with segmentQueue := q } =
      { preloadContent s with segmentQueue := q } := by
  cases s
  unfold preloadContent
  dsimp only
  split <;> rfl

theorem handleRebufferingRisk_queue_comm (s : EngineState) (currentTime : ℚ)
    (buffered : List (ℚ × ℚ)) (q : List Segment) :
    handleRebufferingRisk { s with segmentQueue := q } currentTime buffered =
      { handleRebufferingRisk s currentTime buffered with segmentQueue := q } := by
  unfold handleRebufferingRisk currentQualityId
  dsimp only
  by_cases hb : s.isBuffering = true
  · rw [if_pos hb, if_pos hb]
  · rw [if_neg hb, if_neg hb]
    cases hidx : s.config.qualities.findIdx?
        (fun ql => some ql.id == Option.map QualityLevel.id s.currentQuality) with
    | none =>
        simp only [hidx]
        exact preloadContent_queue_comm _ q
    | some i =>
        simp only [hidx]
        by_cases hpos : 0 < i
        · rw [if_pos hpos, if_pos hpos]
          cases hget : s.config.qualities[i - 1]? with
          | none =>
              simp only [hget]
              exact preloadContent_queue_comm _ q
          | some lq =>
              simp only [hget]
              by_cases hsusp : switchQualitySuspends currentTime buffered = true
              · rw [if_pos hsusp, if_pos hsusp, preloadContent_queue_comm]
                exact switchQuality_queue_comm _ lq q
              · rw [if_neg hsusp, if_neg hsusp, switchQuality_queue_comm]
                exact preloadContent_queue_comm _ q
        · rw [if_neg hpos, if_neg hpos]
          exact preloadContent_queue_comm _ q

theorem monitorBufferHealth_queue_comm (s : EngineState) (currentTime : ℚ)
    (buffered : List (ℚ × ℚ)) (q : List Segment) :
    monitorBufferHealth { s with segmentQueue := q } currentTime buffered =
      { monitorBufferHealth s currentTime buffered with segmentQueue := q } := by
  unfold monitorBufferHealth
  dsimp only
  by_cases hg : (s.hasVideoElement && s.hasSourceBuffer) = true
  · rw [if_pos hg, if_pos hg]
    cases buffered with
    | nil => rfl
    | cons r rs =>
        dsimp only
        by_cases hlow : (List.getLast (r :: rs) (List.cons_ne_nil r rs)).2 - currentTime <
            s.config.rebufferThreshold
        · rw [if_pos hlow, if_pos hlow]
          exact handleRebufferingRisk_queue_comm
            { s with
              adaptiveMetrics :=
                { s.adaptiveMetrics with
                  bufferHealth :=
                    min 100 (((List.getLast (r :: rs) (List.cons_ne_nil r rs)).2 -
                      currentTime) / s.config.targetBufferLength * 100) } }
            currentTime (r :: rs) q
        · rw [if_neg hlow, if_neg hlow]
  · rw [if_neg hg, if_neg hg]

theorem engineTick_queue_comm (inp : TickInput) (s : EngineState) (q : List Segment) :
    engineTick inp { s with segmentQueue := q } =
      { engineTick inp s with segmentQueue := q } := by
  unfold engineTick tickAfterNetwork
  rw [updateCooldown_queue_comm, foldl_networkTick_queue_comm,
    monitorBufferHealth_queue_comm]

theorem handleBufferUpdate_queue_comm (now : ℚ) (s : EngineState) (q : List Segment) :
    handleBufferUpdate now { s with segmentQueue := q } =
      { handleBufferUpdate now s with segmentQueue := q } := by
  cases s
  unfold handleBufferUpdate
  dsimp only
  split <;> rfl

theorem handleBufferError_queue_comm (s : EngineState) (q : List Segment) :
    handleBufferError { s with segmentQueue := q } =
      { handleBufferError s with segmentQueue := q } := by
  cases s
  unfold handleBufferError switchQuality
  dsimp only
  repeat' split <;> try rfl

theorem setupSourceBuffer_queue_comm (s s' : EngineState) (q : List Segment)
    (h : setupSourceBuffer s = Except.ok s') :
    setupSourceBuffer { s with segmentQueue := q } =
      Except.ok { s' with segmentQueue := q } := by
  unfold setupSourceBuffer at h ⊢
  by_cases hms : s.hasMediaSource = true
  · cases hsel : selectInitialQuality s with
    | none =>
        rw [if_pos hms, hsel] at h
        cases h
    | some qq =>
        rw [if_pos hms, hsel] at h
        injection h with h2
        subst h2
        have hms2 : ({ s with segmentQueue := q } : EngineState).hasMediaSource = true := hms
        have hsel2 : selectInitialQuality { s with segmentQueue := q } =
          selectInitialQuality s := rfl
        rw [if_pos hms2, hsel2, hsel]
  · rw [if_neg hms] at h
    cases h

theorem loadSegment_queue_extends (s s' : EngineState)
    (fetchResult : Except JsError Segment) (appendOk : Bool) (now : ℚ)
    (h : loadSegment s fetchResult appendOk now = Except.ok s') :
    ∃ tail, s'.segmentQueue = s.segmentQueue ++ tail := by
  unfold loadSegment at h
  split at h
  · split at h
    · cases h
    · injection h with h2
      subst h2
      exact ⟨_, rfl⟩
  · split at h
    · injection h with h2
      subst h2
      exact ⟨[], by rw [handleBufferError_segmentQueue, List.append_nil]⟩
    · split at h
      · injection h with h2
        subst h2
        exact ⟨[], by rw [List.append_nil]⟩
      · injection h with h2
        subst h2
        exact ⟨[], by rw [handleBufferError_segmentQueue, List.append_nil]⟩

theorem loadSegment_queue_comm (s s' : EngineState)
    (fetchResult : Except JsError Segment) (appendOk : Bool) (now : ℚ)
    (q : List Segment)
    (h : loadSegment s fetchResult appendOk now = Except.ok s') :
    loadSegment { s with segmentQueue := q } fetchResult appendOk now =
      Except.ok
        { s' with segmentQueue := q ++ s'.segmentQueue.drop s.segmentQueue.length } := by
  unfold loadSegment at h ⊢
  by_cases hbusy : (!s.hasSourceBuffer || s.sourceBufferUpdating) = true
  · rw [if_pos hbusy] at h
    have hbusy2 : (!({ s with segmentQueue := q } : EngineState).hasSourceBuffer ||
      ({ s with segmentQueue := q } : EngineState).sourceBufferUpdating) = true := hbusy
    rw [if_pos hbusy2]
    cases fetchResult with
    | error e => cases h
    | ok seg =>
        have h3 : (Except.ok { s with segmentQueue := s.segmentQueue ++ [seg] } :
          Except JsError EngineState) = Except.ok s' := h
        injection h3 with h2
        subst h2
        simp only [List.drop_left]
  · rw [if_neg hbusy] at h
    have hbusy2 : ¬ (!({ s with segmentQueue := q } : EngineState).hasSourceBuffer ||
      ({ s with segmentQueue := q } : EngineState).sourceBufferUpdating) = true := hbusy
    rw [if_neg hbusy2]
    cases fetchResult with
    | error e =>
        have h3 : (Except.ok (handleBufferError s) :
          Except JsError EngineState) = Except.ok s' := h
        injection h3 with h2
        subst h2
        rw [handleBufferError_segmentQueue, List.drop_length, List.append_nil]
        exact congrArg Except.ok (handleBufferError_queue_comm s q)
    | ok seg =>
        by_cases hak : appendOk = true
        · have h3 : (Except.ok
              { s with
                appendedSegments := s.appendedSegments ++ [seg]
                sourceBufferUpdating := true
                lastSegmentTime := now } : Except JsError EngineState) = Except.ok s' := by
            rw [← h]
            show _ = (if appendOk = true then _ else _)
            rw [if_pos hak]
          injection h3 with h2
          subst h2
          rw [List.drop_length, List.append_nil]
          show (if appendOk = true then _ else _) = _
          rw [if_pos hak]
        · have h3 : (Except.ok (handleBufferError s) :
              Except JsError EngineState) = Except.ok s' := by
            rw [← h]
            show _ = (if appendOk = true then _ else _)
            rw [if_neg hak]
          injection h3 with h2
          subst h2
          rw [handleBufferError_segmentQueue, List.drop_length, List.append_nil]
          show (if appendOk = true then _ else _) = _
          rw [if_neg hak]
          exact congrArg Except.ok (handleBufferError_queue_comm s q)

/-- Claim C10: the `segmentQueue` is append-only and write-only.  Every
engine operation (1) extends the queue — entries queued earlier are
never removed — and (2) commutes with replacing the queue contents, so
no operation's outcome (in particular the bytes appended to the source
buffer) depends on what the queue holds: a segment queued by
`loadSegment` during an in-flight append is silently dropped from
playback, never appended later. -/
theorem C10_segment_queue_append_only_never_read (s s' : EngineState)
    (h : EngineStep s s') :
    (∃ tail, s'.segmentQueue = s.segmentQueue ++ tail) ∧
    (∀ q : List Segment,
      EngineStep { s with segmentQueue := q }
        { s' with segmentQueue := q ++ s'.segmentQueue.drop s.segmentQueue.length }) := by
  cases h with
  | tick inp s =>
      refine ⟨⟨[], by rw [engineTick_segmentQueue, List.append_nil]⟩, ?_⟩
      intro q
      have hq : (engineTick inp s).segmentQueue.drop s.segmentQueue.length = [] := by
        rw [engineTick_segmentQueue, List.drop_length]
      rw [hq, List.append_nil]
      have h2 := EngineStep.tick inp { s with segmentQueue := q }
      rw [engineTick_queue_comm] at h2
      exact h2
  | bufferUpdate now s =>
      refine ⟨⟨[], by rw [handleBufferUpdate_segmentQueue, List.append_nil]⟩, ?_⟩
      intro q
      have hq : (handleBufferUpdate now s).segmentQueue.drop s.segmentQueue.length = [] := by
        rw [handleBufferUpdate_segmentQueue, List.drop_length]
      rw [hq, List.append_nil]
      have h2 := EngineStep.bufferUpdate now { s with segmentQueue := q }
      rw [handleBufferUpdate_queue_comm] at h2
      exact h2
  | bufferError s =>
      refine ⟨⟨[], by rw [handleBufferError_segmentQueue, List.append_nil]⟩, ?_⟩
      intro q
      have hq : (handleBufferError s).segmentQueue.drop s.segmentQueue.length = [] := by
        rw [handleBufferError_segmentQueue, List.drop_length]
      rw [hq, List.append_nil]
      have h2 := EngineStep.bufferError { s with segmentQueue := q }
      rw [handleBufferError_queue_comm] at h2
      exact h2
  | attach s =>
      refine ⟨⟨[], by rw [List.append_nil]⟩, ?_⟩
      intro q
      have hq : ({ s with hasVideoElement := true, hasMediaSource := true } :
          EngineState).segmentQueue.drop s.segmentQueue.length = [] := by
        exact List.drop_length _
      rw [hq, List.append_nil]
      exact EngineStep.attach { s with segmentQueue := q }
  | setup s s' hset =>
      refine ⟨⟨[], by rw [setupSourceBuffer_segmentQueue s s' hset, List.append_nil]⟩, ?_⟩
      intro q
      have hq : s'.segmentQueue.drop s.segmentQueue.length = [] := by
        rw [setupSourceBuffer_segmentQueue s s' hset, List.drop_length]
      rw [hq, List.append_nil]
      exact EngineStep.setup _ _ (setupSourceBuffer_queue_comm s s' q hset)
  | load fetchResult appendOk now s s' hload =>
      refine ⟨loadSegment_queue_extends s s' fetchResult appendOk now hload, ?_⟩
      intro q
      exact EngineStep.load fetchResult appendOk now _ _
        (loadSegment_queue_comm s s' fetchResult appendOk now q hload)

/-- Witness for C10: the queueing `loadSegment` step on the busy engine
extends the queue with the fetched segment 42 and commutes with any
queue contents. -/
theorem C10_segment_queue_append_only_never_read_witness :
    (∃ tail, ({ c8busy with segmentQueue := c8busy.segmentQueue ++ [42] } :
      EngineState).segmentQueue = c8busy.segmentQueue ++ tail) ∧
    (∀ q : List Segment,
      EngineStep { c8busy with segmentQueue := q }
        { { c8busy with segmentQueue := c8busy.segmentQueue ++ [42] } with
          segmentQueue := q ++ ({ c8busy with segmentQueue := c8busy.segmentQueue ++ [42] } :
            EngineState).segmentQueue.drop c8busy.segmentQueue.length }) :=
  C10_segment_queue_append_only_never_read c8busy
    { c8busy with segmentQueue := c8busy.segmentQueue ++ [42] }
    (EngineStep.load (Except.ok 42) true 0 c8busy
      { c8busy with segmentQueue := c8busy.segmentQueue ++ [42] } rfl)

/-! ## Claim C2 — cooldown enforcement between evaluation-driven switches -/

/-- How a non-cooldown-decrementing engine operation relates two states:
either the switch counter and the cooldown are untouched, or the counter
grew and the cooldown was (re)set to 2000 by `switchQuality`. -/
def SwitchFrame (s t : EngineState) : Prop :=
  (t.adaptiveMetrics.qualitySwitches = s.adaptiveMetrics.qualitySwitches ∧
    t.qualitySwitchCooldown = s.qualitySwitchCooldown) ∨
  (s.adaptiveMetrics.qualitySwitches < t.adaptiveMetrics.qualitySwitches ∧
    t.qualitySwitchCooldown = 2000)

theorem switchFrame_rfl (s : EngineState) : SwitchFrame s s :=
  Or.inl ⟨rfl, rfl⟩

theorem switchFrame_trans (a b c : EngineState) (h1 : SwitchFrame a b)
    (h2 : SwitchFrame b c) : SwitchFrame a c := by
  rcases h1 with ⟨he1, hc1⟩ | ⟨hl1, hc1⟩
  · rcases h2 with ⟨he2, hc2⟩ | ⟨hl2, hc2⟩
    · exact Or.inl ⟨he2.trans he1, hc2.trans hc1⟩
    · exact Or.inr ⟨he1 ▸ hl2, hc2⟩
  · rcases h2 with ⟨he2, hc2⟩ | ⟨hl2, hc2⟩
    · exact Or.inr ⟨he2 ▸ hl1, hc2.trans hc1⟩
    · exact Or.inr ⟨hl1.trans hl2, hc2⟩

theorem switchQuality_switchFrame (s : EngineState) (q : QualityLevel) :
    SwitchFrame s (switchQuality s q) := by
  unfold SwitchFrame switchQuality
  split
  · exact Or.inr ⟨Nat.lt_succ_self _, rfl⟩
  · exact Or.inl ⟨rfl, rfl⟩

theorem preloadContent_qualitySwitches (s : EngineState) :
    (preloadContent s).adaptiveMetrics.qualitySwitches =
      s.adaptiveMetrics.qualitySwitches := by
  unfold preloadContent
  cases s.currentQuality <;> rfl

theorem preloadContent_cooldown (s : EngineState) :
    (preloadContent s).qualitySwitchCooldown = s.qualitySwitchCooldown := by
  unfold preloadContent
  cases s.currentQuality <;> rfl

theorem calculateNetworkStability_qualitySwitches (s : EngineState) :
    (calculateNetworkStability s).adaptiveMetrics.qualitySwitches =
      s.adaptiveMetrics.qualitySwitches := by
  simp only [calculateNetworkStability]
  split <;> rfl

theorem calculateNetworkStability_cooldown (s : EngineState) :
    (calculateNetworkStability s).qualitySwitchCooldown =
      s.qualitySwitchCooldown := by
  simp only [calculateNetworkStability]
  split <;> rfl

theorem updateNetworkMetrics_qualitySwitches (s : EngineState) (inp : ProbeInput) :
    (updateNetworkMetrics s inp).adaptiveMetrics.qualitySwitches =
      s.adaptiveMetrics.qualitySwitches := by
  simp only [updateNetworkMetrics, calculateNetworkStability_qualitySwitches]

theorem updateNetworkMetrics_cooldown (s : EngineState) (inp : ProbeInput) :
    (updateNetworkMetrics s inp).qualitySwitchCooldown = s.qualitySwitchCooldown := by
  simp only [updateNetworkMetrics, calculateNetworkStability_cooldown]

theorem adaptQuality_switchFrame (s : EngineState) :
    SwitchFrame s (adaptQuality s) := by
  unfold adaptQuality
  cases s.currentQuality <;> dsimp only
  · exact switchFrame_rfl s
  · split
    · exact switchFrame_rfl s
    · split
      · exact switchFrame_rfl s
      · split
        · exact switchQuality_switchFrame s _
        · exact switchFrame_rfl s

theorem networkTick_switchFrame (s : EngineState) (p : ProbeInput) :
    SwitchFrame s (networkTick s p) := by
  unfold networkTick
  refine switchFrame_trans s (updateNetworkMetrics s p) _ ?_ ?_
  · exact Or.inl ⟨updateNetworkMetrics_qualitySwitches s p,
      updateNetworkMetrics_cooldown s p⟩
  · exact adaptQuality_switchFrame (updateNetworkMetrics s p)

theorem foldl_networkTick_switchFrame (evs : List ProbeInput) :
    ∀ t : EngineState, SwitchFrame t (evs.foldl networkTick t) := by
  induction evs with
  | nil => intro t; exact switchFrame_rfl t
  | cons e evs ih =>
      intro t
      rw [List.foldl_cons]
      exact switchFrame_trans t (networkTick t e) _
        (networkTick_switchFrame t e) (ih (networkTick t e))

theorem handleRebufferingRisk_switchFrame (s : EngineState) (currentTime : ℚ)
    (buffered : List (ℚ × ℚ)) :
    SwitchFrame s (handleRebufferingRisk s currentTime buffered) := by
  unfold handleRebufferingRisk
  split
  · exact switchFrame_rfl s
  · split
    · exact Or.inl ⟨preloadContent_qualitySwitches _, preloadContent_cooldown _⟩
    · split
      · split
        · split
          · exact switchFrame_trans s (preloadContent s) _
              (Or.inl ⟨preloadContent_qualitySwitches _, preloadContent_cooldown _⟩)
              (switchQuality_switchFrame _ _)
          · exact switchFrame_trans s (switchQuality s _) _
              (switchQuality_switchFrame s _)
              (Or.inl ⟨preloadContent_qualitySwitches _, preloadContent_cooldown _⟩)
        · exact Or.inl ⟨preloadContent_qualitySwitches _, preloadContent_cooldown _⟩
      · exact Or.inl ⟨preloadContent_qualitySwitches _, preloadContent_cooldown _⟩

theorem monitorBufferHealth_switchFrame (s : EngineState) (currentTime : ℚ)
    (buffered : List (ℚ × ℚ)) :
    SwitchFrame s (monitorBufferHealth s currentTime buffered) := by
  unfold monitorBufferHealth
  split
  · cases buffered with
    | nil => exact Or.inl ⟨rfl, rfl⟩
    | cons r rs =>
        dsimp only
        split
        · refine switchFrame_trans s
            { s with
              adaptiveMetrics :=
                { s.adaptiveMetrics with
                  bufferHealth :=
                    min 100 (((List.getLast (r :: rs) (List.cons_ne_nil r rs)).2 -
                      currentTime) / s.config.targetBufferLength * 100) } } _
            (Or.inl ⟨rfl, rfl⟩) (handleRebufferingRisk_switchFrame _ currentTime (r :: rs))
        · exact Or.inl ⟨rfl, rfl⟩
  · exact switchFrame_rfl s

/-- While the cooldown is positive `adaptQuality` is the identity. -/
theorem adaptQuality_pos_eq (s : EngineState) (h : 0 < s.qualitySwitchCooldown) :
    adaptQuality s = s := by
  unfold adaptQuality
  cases s.currentQuality <;> dsimp only
  rw [if_pos h]

/-- A fold of network-check firings started with a positive cooldown
switches nothing and leaves the cooldown untouched. -/
theorem foldl_networkTick_pos (evs : List ProbeInput) :
    ∀ t : EngineState, 0 < t.qualitySwitchCooldown →
      (evs.foldl networkTick t).adaptiveMetrics.qualitySwitches =
        t.adaptiveMetrics.qualitySwitches ∧
      (evs.foldl networkTick t).qualitySwitchCooldown = t.qualitySwitchCooldown := by
  induction evs with
  | nil => intro t _; exact ⟨rfl, rfl⟩
  | cons e evs ih =>
      intro t ht
      rw [List.foldl_cons]
      have hcool : (networkTick t e).qualitySwitchCooldown = t.qualitySwitchCooldown := by
        unfold networkTick
        rw [adaptQuality_pos_eq _ (by rw [updateNetworkMetrics_cooldown]; exact ht),
          updateNetworkMetrics_cooldown]
      have hcount : (networkTick t e).adaptiveMetrics.qualitySwitches =
          t.adaptiveMetrics.qualitySwitches := by
        unfold networkTick
        rw [adaptQuality_pos_eq _ (by rw [updateNetworkMetrics_cooldown]; exact ht),
          updateNetworkMetrics_qualitySwitches]
      obtain ⟨h1, h2⟩ := ih (networkTick t e) (by rw [hcool]; exact ht)
      exact ⟨h1.trans hcount, h2.trans hcool⟩

/-- The cooldown values reachable from a fresh engine: 0, 1000 or
2000 ms. -/
def CooldownInv (s : EngineState) : Prop :=
  s.qualitySwitchCooldown = 0 ∨ s.qualitySwitchCooldown = 1000 ∨
    s.qualitySwitchCooldown = 2000

theorem updateCooldown_inv (s : EngineState) (h : CooldownInv s) :
    CooldownInv (updateCooldown s) ∧
      (updateCooldown s).qualitySwitchCooldown =
        max (s.qualitySwitchCooldown - 1000) 0 := by
  rcases h with h | h | h
  · have he : updateCooldown s = s := by
      unfold updateCooldown
      rw [if_neg (show ¬ (0 : ℤ) < s.qualitySwitchCooldown by rw [h]; norm_num)]
    constructor
    · rw [he]
      exact Or.inl h
    · rw [he, h]
      norm_num
  · have he : (updateCooldown s).qualitySwitchCooldown =
        s.qualitySwitchCooldown - 1000 := by
      unfold updateCooldown
      rw [if_pos (show (0 : ℤ) < s.qualitySwitchCooldown by rw [h]; norm_num)]
    constructor
    · exact Or.inl (by rw [he, h]; norm_num)
    · rw [he, h]
      norm_num
  · have he : (updateCooldown s).qualitySwitchCooldown =
        s.qualitySwitchCooldown - 1000 := by
      unfold updateCooldown
      rw [if_pos (show (0 : ℤ) < s.qualitySwitchCooldown by rw [h]; norm_num)]
    constructor
    · exact Or.inr (Or.inl (by rw [he, h]; norm_num))
    · rw [he, h]
      norm_num

theorem switchFrame_inv (s t : EngineState) (hf : SwitchFrame s t)
    (h : CooldownInv s) : CooldownInv t := by
  rcases hf with ⟨_, hc⟩ | ⟨_, hc⟩
  · unfold CooldownInv
    rw [hc]
    exact h
  · unfold CooldownInv
    rw [hc]
    tauto

theorem engineTick_inv (inp : TickInput) (s : EngineState) (h : CooldownInv s) :
    CooldownInv (engineTick inp s) := by
  unfold engineTick tickAfterNetwork
  have h1 := (updateCooldown_inv s h).1
  have h2 := switchFrame_inv _ _
    (foldl_networkTick_switchFrame inp.networkEvents (updateCooldown s)) h1
  exact switchFrame_inv _ _
    (monitorBufferHealth_switchFrame _ inp.currentTime inp.buffered) h2

theorem engineTrace_inv (inps : ℕ → TickInput) (s0 : EngineState)
    (h0 : s0.qualitySwitchCooldown = 0) :
    ∀ n, CooldownInv (engineTrace inps s0 n) := by
  intro n
  induction n with
  | zero => exact Or.inl h0
  | succ n ih => exact engineTick_inv (inps n) _ ih

/-- A tick that performed an evaluation-driven switch ends (before the
buffer check) with the cooldown reset to 2000. -/
theorem tickEvalSwitched_cooldown (inp : TickInput) (s : EngineState)
    (h : TickEvalSwitched inp s) :
    (tickAfterNetwork inp s).qualitySwitchCooldown = 2000 := by
  unfold TickEvalSwitched at h
  unfold tickAfterNetwork at h ⊢
  rcases foldl_networkTick_switchFrame inp.networkEvents (updateCooldown s) with
    ⟨he, _⟩ | ⟨_, hc⟩
  · rw [he] at h
    exact absurd h (lt_irrefl _)
  · exact hc

/-- A tick whose post-decrement cooldown is still positive performs no
evaluation-driven switch. -/
theorem cooldown_pos_no_eval_switch (inp : TickInput) (s : EngineState)
    (h : 0 < (updateCooldown s).qualitySwitchCooldown) :
    ¬ TickEvalSwitched inp s := by
  unfold TickEvalSwitched tickAfterNetwork
  obtain ⟨h1, _⟩ := foldl_networkTick_pos inp.networkEvents (updateCooldown s) h
  rw [h1]
  exact lt_irrefl _

/-- After an evaluation-switch tick the stored cooldown is 2000. -/
theorem eval_switch_next_cooldown (inps : ℕ → TickInput) (s0 : EngineState) (n : ℕ)
    (h : TickEvalSwitched (inps n) (engineTrace inps s0 n)) :
    (engineTrace inps s0 (n + 1)).qualitySwitchCooldown = 2000 := by
  have hc := tickEvalSwitched_cooldown (inps n) (engineTrace inps s0 n) h
  show (engineTick (inps n) (engineTrace inps s0 n)).qualitySwitchCooldown = 2000
  unfold engineTick
  rcases monitorBufferHealth_switchFrame (tickAfterNetwork (inps n)
      (engineTrace inps s0 n)) (inps n).currentTime (inps n).buffered with
    ⟨_, hcc⟩ | ⟨_, hcc⟩
  · rw [hcc]
    exact hc
  · exact hcc

/-- Claim C2: quality-switch cooldown enforcement over any tick trace
started with no pending cooldown.  (1) Every completed `switchQuality`
sets the cooldown to 2000 ms; (2) on every trace state the per-tick
`updateCooldown` decrement is 1000 ms with floor 0; (3) while the
decremented cooldown is still positive a tick performs no
evaluation-driven switch; (4) hence two evaluation-driven switches (the
ticks being 1000 ms apart; forced downgrades are not counted) are at
least the configured 2000 ms apart. -/
theorem C2_cooldown_enforcement (inps : ℕ → TickInput) (s0 : EngineState)
    (h0 : s0.qualitySwitchCooldown = 0) :
    (∀ (s : EngineState) (q : QualityLevel),
      (s.hasMediaSource && s.hasSourceBuffer) = true →
      (switchQuality s q).qualitySwitchCooldown = 2000) ∧
    (∀ n, (updateCooldown (engineTrace inps s0 n)).qualitySwitchCooldown =
      max ((engineTrace inps s0 n).qualitySwitchCooldown - 1000) 0) ∧
    (∀ n, 0 < (updateCooldown (engineTrace inps s0 n)).qualitySwitchCooldown →
      ¬ TickEvalSwitched (inps n) (engineTrace inps s0 n)) ∧
    (∀ i j, i < j → TickEvalSwitched (inps i) (engineTrace inps s0 i) →
      TickEvalSwitched (inps j) (engineTrace inps s0 j) →
      2000 ≤ ((j : ℤ) - (i : ℤ)) * 1000) := by
  refine ⟨?_, ?_, ?_, ?_⟩
  · intro s q hg
    unfold switchQuality
    rw [if_pos hg]
  · intro n
    exact (updateCooldown_inv _ (engineTrace_inv inps s0 h0 n)).2
  · intro n
    exact cooldown_pos_no_eval_switch (inps n) (engineTrace inps s0 n)
  · intro i j hij hi hj
    have hnot : ¬ TickEvalSwitched (inps (i + 1)) (engineTrace inps s0 (i + 1)) := by
      apply cooldown_pos_no_eval_switch
      have h2000 := eval_switch_next_cooldown inps s0 i hi
      have := (updateCooldown_inv (engineTrace inps s0 (i + 1))
        (engineTrace_inv inps s0 h0 (i + 1))).2
      rw [this, h2000]
      norm_num
    have hne : j ≠ i + 1 := fun hEq => hnot (hEq ▸ hj)
    omega

/-- Witness for C2: the fresh engine over the base ladder with a
constant tick input stream. -/
theorem C2_cooldown_enforcement_witness :
    (∀ (s : EngineState) (q : QualityLevel),
      (s.hasMediaSource && s.hasSourceBuffer) = true →
      (switchQuality s q).qualitySwitchCooldown = 2000) ∧
    (∀ n, (updateCooldown (engineTrace (fun _ => c4inp) (mkEngine baseConfig) n)).qualitySwitchCooldown =
      max ((engineTrace (fun _ => c4inp) (mkEngine baseConfig) n).qualitySwitchCooldown - 1000) 0) ∧
    (∀ n, 0 < (updateCooldown (engineTrace (fun _ => c4inp) (mkEngine baseConfig) n)).qualitySwitchCooldown →
      ¬ TickEvalSwitched c4inp (engineTrace (fun _ => c4inp) (mkEngine baseConfig) n)) ∧
    (∀ i j, i < j →
      TickEvalSwitched c4inp (engineTrace (fun _ => c4inp) (mkEngine baseConfig) i) →
      TickEvalSwitched c4inp (engineTrace (fun _ => c4inp) (mkEngine baseConfig) j) →
      2000 ≤ ((j : ℤ) - (i : ℤ)) * 1000) :=
  C2_cooldown_enforcement (fun _ => c4inp) (mkEngine baseConfig) rfl

end AdaptiveStreaming
